import Mathlib

/-!
Verification of the integrated Arduino Opta device-controller firmware
(`integrated_opta_controller.ino`, the serial-transport variant, and
`integrated_opta_controller_ethernet.ino`, the TCP variant).

The firmware is embedded shallowly:

* Machine strings (`char` buffers) become `String`; `snprintf`/`strncpy`
  truncation to a buffer of `n` bytes becomes `takeChars _ (n-1)`.
* The shared RS485 bus is time-abstracted: one read window of the
  timeout-driven response readers sees the list of bytes (as `Nat`s)
  delivered within that window, and a whole command sees a list of such
  byte batches, one per read the command performs.  Exhausting a batch is
  the time-out of that read; the gap time-out of the line reader only ends
  a window early, which the batch abstraction already expresses.
* `digitalWrite` on relay pins becomes Boolean pin-level fields.
* Transmitted frames are collected in a `List String` result component.
-/

namespace Opta

/-- `CommandResult` of both sketches. -/
inductive CommandResult where
  | CMD_OK
  | CMD_ERROR
  | CMD_DATA
deriving DecidableEq, Repr

export CommandResult (CMD_OK CMD_ERROR CMD_DATA)

/-- `MasterflexDevice::ResponseType` of both sketches. -/
inductive ResponseType where
  | RESP_NONE
  | RESP_LINE
  | RESP_ACK
  | RESP_NAK
deriving DecidableEq, Repr

export ResponseType (RESP_NONE RESP_LINE RESP_ACK RESP_NAK)

/-- First `n` characters of a string (the effect of copying into an
`n+1`-byte buffer with truncation). -/
def takeChars (s : String) (n : Nat) : String :=
  String.mk (s.data.take n)

/-- Lower-casing, character by character (model of `tolower` over ASCII). -/
def strLower (s : String) : String :=
  String.mk (s.data.map Char.toLower)

/-- `strcasecmp(a, b) == 0` / Arduino `String::equalsIgnoreCase`. -/
def strcaseEq (a b : String) : Bool :=
  strLower a == strLower b

/-- Whitespace test used by Arduino `String::trim` (`isspace`). -/
def isWS (c : Char) : Bool :=
  c = ' ' || c = '\t' || c = '\n' || c = '\r' || c = '\x0b' || c = '\x0c'

/-- Arduino `String::trim`: strip whitespace from both ends. -/
def trimChars (s : String) : String :=
  String.mk (((s.data.dropWhile isWS).reverse.dropWhile isWS).reverse)

/-- `strtok` with separator `":"`: consecutive or leading separators are
coalesced, so only non-empty fields are produced.  First argument is the
input, second the (reversed) field being accumulated. -/
def strtokColon : List Char → List Char → List String
  | [], cur => if cur = [] then [] else [String.mk cur.reverse]
  | c :: rest, cur =>
    if c = ':' then
      if cur = [] then strtokColon rest []
      else String.mk cur.reverse :: strtokColon rest []
    else strtokColon rest (c :: cur)

/-- The `:`-separated tokens of a command line, as `strtok` yields them. -/
def tokensOf (s : String) : List String :=
  strtokColon s.data []

/-- Plain split on `':'` keeping empty fields (used only to state what a
"blank token" of the grammar is; the firmware itself uses `strtok`). -/
def splitFields : List Char → List Char → List String
  | [], cur => [String.mk cur.reverse]
  | c :: rest, cur =>
    if c = ':' then String.mk cur.reverse :: splitFields rest []
    else splitFields rest (c :: cur)

/-- Response-line tag chosen from a device's `CommandResult`. -/
def tagOf : CommandResult → String
  | CMD_OK => "OK: "
  | CMD_ERROR => "ERROR: "
  | CMD_DATA => "DATA: "

-- ===========================================================================
-- Relay device
-- ===========================================================================

/-- State of a `RelayDevice`: identifier, the two output pin levels, the
recorded `state`, and the base-class `enabled` flag. -/
structure RelayState where
  id : String
  pinLevel : Bool
  ledLevel : Bool
  state : Bool
  enabled : Bool
deriving DecidableEq, Repr

/-- `RelayDevice::RelayDevice`: copies at most 11 characters of the id
(`char id[12]`), records `state = false`.  The electrical pin levels prior
to `initialize()` are not driven by the constructor; they are modelled as
low. -/
def RelayDevice.make (deviceId : String) : RelayState :=
  { id := takeChars deviceId 11, pinLevel := false, ledLevel := false,
    state := false, enabled := false }

/-- `RelayDevice::initialize`: drive both pins low, reset `state`, set
`enabled`, return `true`. -/
def RelayDevice.initializeRelay (r : RelayState) : Bool × RelayState :=
  (true, { r with pinLevel := false, ledLevel := false, state := false, enabled := true })

/-- `RelayDevice::processCommand` (identical in both sketches; `param1`,
`param2` are unused by the relay). -/
def RelayDevice.processCommand (r : RelayState) (command : String) :
    CommandResult × String × RelayState :=
  if strcaseEq command "ON" then
    (CMD_OK, "Relay " ++ r.id ++ " ON",
     { r with pinLevel := true, ledLevel := true, state := true })
  else if strcaseEq command "OFF" then
    (CMD_OK, "Relay " ++ r.id ++ " OFF",
     { r with pinLevel := false, ledLevel := false, state := false })
  else if strcaseEq command "TOGGLE" then
    (CMD_OK, "Relay " ++ r.id ++ " " ++ (if !r.state then "ON" else "OFF"),
     { r with state := !r.state, pinLevel := !r.state, ledLevel := !r.state })
  else
    (CMD_ERROR, "Unknown relay command: " ++ command, r)

/-- `RelayDevice::getStatus` (always reports `true`; status is
`"<id>:ON"` or `"<id>:OFF"`). -/
def RelayDevice.getStatus (r : RelayState) : String :=
  r.id ++ ":" ++ (if r.state then "ON" else "OFF")

-- ===========================================================================
-- VICI valve device
-- ===========================================================================

/-- State of a `ViciDevice`: identifier, single-character bus address,
and the base-class `enabled` flag.  The valve is stateless between
commands. -/
structure ViciState where
  id : String
  viciId : Char
  enabled : Bool
deriving DecidableEq, Repr

/-- `ViciDevice::ViciDevice`. -/
def ViciDevice.make (deviceId : String) (valveId : Char) : ViciState :=
  { id := takeChars deviceId 11, viciId := valveId, enabled := false }

/-- `ViciDevice::initialize`: only sets `enabled`. -/
def ViciDevice.initializeValve (v : ViciState) : Bool × ViciState :=
  (true, { v with enabled := true })

/-- The framed VICI request `"/<address><core-command>\r"` built by
`ViciDevice::sendFrame` (the 64-byte frame buffer is never reached by
the core commands the sketch produces). -/
def viciFrame (address : Char) (core : String) : String :=
  "/" ++ String.mk [address] ++ core ++ "\r"

/-- `ViciDevice::readLine` on the byte batch delivered within its
total/gap time-out window.  `'\r'` terminates the line, `'\n'` bytes are
ignored, other bytes are buffered while fewer than `max - 1` characters
are stored.  Exhaustion of the batch is the time-out (or the gap
time-out, which classifies identically); the read succeeds iff at least
one character was buffered. -/
def readLineGo (max : Nat) : List Char → List Nat → Option String
  | buf, [] => if buf.length > 0 then some (String.mk buf) else none
  | buf, b :: rest =>
    if b = 13 then (if buf.length > 0 then some (String.mk buf) else none)
    else if b = 10 then readLineGo max buf rest
    else readLineGo max (if buf.length + 1 < max then buf ++ [Char.ofNat b] else buf) rest

/-- `ViciDevice::readLine` entered with an empty buffer. -/
def readLine (max : Nat) (bytes : List Nat) : Option String :=
  readLineGo max [] bytes

/-- `ViciDevice::processCommand` (identical logic in both sketches).
`bus` is the list of byte batches the bus delivers, one per read the
command performs; the third result component lists the frames the
command transmitted.  The `param1` null-pointer test of the `GOTO`
branch is always true in the firmware (the parser hands over a real
buffer), so it does not appear.  `"GO%s"` is built in a 16-byte buffer,
hence the 15-character truncation. -/
def ViciDevice.processCommand (v : ViciState) (command param1 : String)
    (bus : List (List Nat)) : CommandResult × String × List String :=
  if strcaseEq command "GOTO" then
    (CMD_OK, "VICI " ++ v.id ++ " moved to " ++ param1,
     [viciFrame v.viciId (takeChars ("GO" ++ param1) 15)])
  else if strcaseEq command "TOGGLE" then
    (CMD_OK, "VICI " ++ v.id ++ " toggled", [viciFrame v.viciId "TO"])
  else if strcaseEq command "HOME" then
    (CMD_OK, "VICI " ++ v.id ++ " homed", [viciFrame v.viciId "HM"])
  else if strcaseEq command "POSITION" then
    match readLine 128 (bus.headD []) with
    | some s => (CMD_DATA, "VICI " ++ v.id ++ " position: " ++ s,
                 [viciFrame v.viciId "CP"])
    | none => (CMD_ERROR, "VICI command failed or unknown: " ++ command,
               [viciFrame v.viciId "CP"])
  else if strcaseEq command "STATUS" then
    match readLine 128 (bus.headD []) with
    | some s => (CMD_DATA, "VICI " ++ v.id ++ " status: " ++ s,
                 [viciFrame v.viciId "STAT"])
    | none => (CMD_ERROR, "VICI command failed or unknown: " ++ command,
               [viciFrame v.viciId "STAT"])
  else if strcaseEq command "CW" then
    (CMD_OK, "VICI " ++ v.id ++ " moved CW", [viciFrame v.viciId "CW"])
  else if strcaseEq command "CCW" then
    (CMD_OK, "VICI " ++ v.id ++ " moved CCW", [viciFrame v.viciId "CC"])
  else
    (CMD_ERROR, "VICI command failed or unknown: " ++ command, [])

/-- `ViciDevice::getStatus`: a `CP` transaction into a 32-byte buffer;
best-effort (`UNKNOWN` marker on a failed read), always reports `true`. -/
def ViciDevice.getStatus (v : ViciState) (bus : List Nat) : String :=
  match readLine 32 bus with
  | some s => v.id ++ ":POS_" ++ s
  | none => v.id ++ ":UNKNOWN"

-- ===========================================================================
-- Masterflex pump device (serial-transport sketch)
-- ===========================================================================

/-- State of a `MasterflexDevice`: identifier, the short numeric bus
address (`char pumpId[4]`), the addressing-handshake flag `initialized`,
and the base-class `enabled` flag. -/
structure MflexState where
  id : String
  pumpId : String
  initialized : Bool
  enabled : Bool
deriving DecidableEq, Repr

/-- `MasterflexDevice::MasterflexDevice`. -/
def MasterflexDevice.make (deviceId masterflexId : String) : MflexState :=
  { id := takeChars deviceId 11, pumpId := takeChars masterflexId 3,
    initialized := false, enabled := false }

/-- `MasterflexDevice::initialize`: only sets `enabled` (the ethernet
sketch additionally rewrites `initialized := false`, which the
constructor already established). -/
def MasterflexDevice.initializeMflex (m : MflexState) : Bool × MflexState :=
  (true, { m with enabled := true })

/-- The binary Masterflex frame `STX "P" <pumpId> <core> CR` built by
`sendMasterflexFrame`. -/
def mfFrame (pumpId core : String) : String :=
  "\x02P" ++ pumpId ++ core ++ "\r"

/-- `MasterflexDevice::readMasterflexResponse` of the serial-transport
sketch, on the byte batch delivered within its time-out window.  A
`0x06` byte yields `RESP_ACK` and a `0x15` byte `RESP_NAK` as soon as
they are seen; a `'\r'` yields `RESP_LINE` when at least one byte was
buffered before it and `RESP_NONE` otherwise; batch exhaustion (the
time-out) yields `RESP_LINE` exactly when the buffer is non-empty.
Unlike the ethernet variant, `'\n'` bytes are buffered like any other
byte. -/
def readMasterflexGo (maxLen : Nat) : List Char → List Nat → ResponseType × String
  | buf, [] => (if buf.length > 0 then RESP_LINE else RESP_NONE, String.mk buf)
  | buf, b :: rest =>
    if b = 6 then (RESP_ACK, String.mk buf)
    else if b = 21 then (RESP_NAK, String.mk buf)
    else if b = 13 then (if buf.length > 0 then RESP_LINE else RESP_NONE, String.mk buf)
    else readMasterflexGo maxLen
      (if buf.length + 1 < maxLen then buf ++ [Char.ofNat b] else buf) rest

/-- Serial-sketch `readMasterflexResponse` entered with an empty buffer. -/
def readMasterflexResponse (maxLen : Nat) (bytes : List Nat) : ResponseType × String :=
  readMasterflexGo maxLen [] bytes

/-- `strstr(haystack, needle) != NULL`: the needle occurs (contiguously)
anywhere in the haystack. -/
def strstrB (p : List Char) : List Char → Bool
  | [] => p.isPrefixOf []
  | c :: rest => p.isPrefixOf (c :: rest) || strstrB p rest

/-- `strstr(response, "P?") != NULL`: the requesting-address marker
occurs anywhere in the reply line. -/
def hasReqMarker (s : String) : Bool :=
  strstrB "P?".data s.data

/-- `MasterflexDevice::initializePump` of the serial-transport sketch:
transmit a lone ENQ byte, read the reply (96-byte buffer, 1200 ms);
when it is a data line in which `"P?"` occurs, transmit the
address-assignment frame `STX "P" <pumpId> CR` and read again (800 ms);
`initialized` becomes true exactly on an `RESP_ACK` reply.  Returns the
success flag, the new state and the transmitted frames (the ENQ byte is
listed as the one-byte frame `"\x05"`). -/
def MasterflexDevice.initializePump (m : MflexState) (bus : List (List Nat)) :
    Bool × MflexState × List String :=
  let r1 := readMasterflexResponse 96 (bus.headD [])
  if r1.fst = RESP_LINE && hasReqMarker r1.snd then
    let assignFrame := "\x02P" ++ m.pumpId ++ "\r"
    let r2 := readMasterflexResponse 96 ((bus.drop 1).headD [])
    if r2.fst = RESP_ACK then
      (true, { m with initialized := true }, ["\x05", assignFrame])
    else
      (false, m, ["\x05", assignFrame])
  else
    (false, m, ["\x05"])

/-- Fixed-point model of `atof(param1)` in tenths: optional sign,
integer digits, and at most one fractional digit are honoured (the
sketches print with one decimal, so further float precision is
unobservable there; none of the verified claims depends on the numeric
formatting). -/
def atofTenths (s : String) : Int :=
  let (sgn, ds) : Int × List Char :=
    match s.data with
    | '-' :: rest => (-1, rest)
    | '+' :: rest => (1, rest)
    | l => (1, l)
  let intPart : Nat := (ds.takeWhile Char.isDigit).foldl (fun a c => a * 10 + (c.toNat - 48)) 0
  let frac : Nat :=
    match ds.dropWhile Char.isDigit with
    | '.' :: d :: _ => if d.isDigit then d.toNat - 48 else 0
    | _ => 0
  sgn * ((intPart * 10 + frac : Nat) : Int)

/-- Digits of a natural number, zero-padded on the left to `w`. -/
def padNat (n w : Nat) : String :=
  let s := toString n
  String.mk (List.replicate (w - s.length) '0') ++ s

/-- `"%06.1f"` of a value given in tenths (zero-padded to 6 characters
including sign and decimal point, one decimal). -/
def fmtFixed1Pad6 (t : Int) : String :=
  let n := t.natAbs
  let core := padNat (n / 10) (if t < 0 then 3 else 4) ++ "." ++ toString (n % 10)
  (if t < 0 then "-" else "") ++ core

/-- `"%.1f"` of a value given in tenths (no padding). -/
def fmtFixed1 (t : Int) : String :=
  (if t < 0 then "-" else "") ++ toString (t.natAbs / 10) ++ "." ++ toString (t.natAbs % 10)

/-- `"%04d"` of `(int)rpm`, the tenths value truncated toward zero. -/
def fmtInt4 (t : Int) : String :=
  let n := t.natAbs / 10
  (if t ≤ -10 then "-" ++ padNat n 3 else padNat n 4)

/-- Fixed-point model of `atof(param1)` in hundredths for the `REV`
command. -/
def atofHundredths (s : String) : Int :=
  let (sgn, ds) : Int × List Char :=
    match s.data with
    | '-' :: rest => (-1, rest)
    | '+' :: rest => (1, rest)
    | l => (1, l)
  let intPart : Nat := (ds.takeWhile Char.isDigit).foldl (fun a c => a * 10 + (c.toNat - 48)) 0
  let frac : Nat :=
    match ds.dropWhile Char.isDigit with
    | '.' :: d :: e :: _ =>
      if d.isDigit then (d.toNat - 48) * 10 + (if e.isDigit then e.toNat - 48 else 0) else 0
    | '.' :: d :: _ => if d.isDigit then (d.toNat - 48) * 10 else 0
    | _ => 0
  sgn * ((intPart * 100 + frac : Nat) : Int)

/-- `"%08.2f"` of a value given in hundredths. -/
def fmtFixed2Pad8 (h : Int) : String :=
  let n := h.natAbs
  let core := padNat (n / 100) (if h < 0 then 4 else 5) ++ "." ++ padNat (n % 100) 2
  (if h < 0 then "-" else "") ++ core

/-- `"%.2f"` of a value given in hundredths (no padding). -/
def fmtFixed2 (h : Int) : String :=
  (if h < 0 then "-" else "") ++ toString (h.natAbs / 100) ++ "." ++ padNat (h.natAbs % 100) 2

/-- `MasterflexDevice::processCommand` of the serial-transport sketch.
`bus` is the list of byte batches delivered, one per read; the last
result component lists the transmitted frames.  The `&& param1`
null-pointer guards of `SPEED` and `REV` are always true in the
firmware and so are omitted.  When a command's reply check fails,
control reaches the shared `"command failed or unknown"` error exit
with the frame already on the bus. -/
def MasterflexDevice.processCommand (m : MflexState) (command param1 param2 : String)
    (bus : List (List Nat)) : CommandResult × String × MflexState × List String :=
  if strcaseEq command "INIT" then
    match MasterflexDevice.initializePump m bus with
    | (true, m', fr) =>
      (CMD_OK, "Masterflex " ++ m.id ++ " initialized successfully", m', fr)
    | (false, m', fr) =>
      (CMD_ERROR,
       "Failed to initialize Masterflex " ++ m.id ++ " - check serial output for details",
       m', fr)
  else if !m.initialized then
    (CMD_ERROR, "Masterflex " ++ m.id ++ " not initialized", m, [])
  else
    if strcaseEq command "SPEED" then
      let rpm := atofTenths param1
      let direction := if param2.data.headD ' ' = '-' then '-' else '+'
      let speedCmd :=
        if rpm.natAbs ≥ 10000 then "S" ++ String.mk [direction] ++ fmtInt4 rpm
        else "S" ++ String.mk [direction] ++ fmtFixed1Pad6 rpm
      let fr := mfFrame m.pumpId speedCmd
      if (readMasterflexResponse 128 (bus.headD [])).fst = RESP_ACK then
        (CMD_OK,
         "Masterflex " ++ m.id ++ " speed set to " ++ String.mk [direction] ++
           fmtFixed1 rpm ++ " RPM", m, [fr])
      else (CMD_ERROR, "Masterflex command failed or unknown: " ++ command, m, [fr])
    else if strcaseEq command "START" || strcaseEq command "GO" then
      let fr := mfFrame m.pumpId "G"
      if (readMasterflexResponse 128 (bus.headD [])).fst = RESP_ACK then
        (CMD_OK, "Masterflex " ++ m.id ++ " started", m, [fr])
      else (CMD_ERROR, "Masterflex command failed or unknown: " ++ command, m, [fr])
    else if strcaseEq command "STOP" || strcaseEq command "HALT" then
      let fr := mfFrame m.pumpId "H"
      if (readMasterflexResponse 128 (bus.headD [])).fst = RESP_ACK then
        (CMD_OK, "Masterflex " ++ m.id ++ " stopped", m, [fr])
      else (CMD_ERROR, "Masterflex command failed or unknown: " ++ command, m, [fr])
    else if strcaseEq command "REV" then
      let rev := atofHundredths param1
      let fr := mfFrame m.pumpId ("V" ++ fmtFixed2Pad8 rev)
      if (readMasterflexResponse 128 (bus.headD [])).fst = RESP_ACK then
        (CMD_OK, "Masterflex " ++ m.id ++ " revolutions set to " ++ fmtFixed2 rev, m, [fr])
      else (CMD_ERROR, "Masterflex command failed or unknown: " ++ command, m, [fr])
    else if strcaseEq command "STATUS" then
      let fr := mfFrame m.pumpId "I"
      let r := readMasterflexResponse 128 (bus.headD [])
      if r.fst = RESP_LINE then
        (CMD_DATA, "Masterflex " ++ m.id ++ " status: " ++ r.snd, m, [fr])
      else (CMD_ERROR, "Masterflex command failed or unknown: " ++ command, m, [fr])
    else if strcaseEq command "REMOTE" then
      let fr := mfFrame m.pumpId "R"
      if (readMasterflexResponse 128 (bus.headD [])).fst = RESP_ACK then
        (CMD_OK, "Masterflex " ++ m.id ++ " remote mode enabled", m, [fr])
      else (CMD_ERROR, "Masterflex command failed or unknown: " ++ command, m, [fr])
    else if strcaseEq command "LOCAL" then
      let fr := mfFrame m.pumpId "L"
      if (readMasterflexResponse 128 (bus.headD [])).fst = RESP_ACK then
        (CMD_OK, "Masterflex " ++ m.id ++ " local mode enabled", m, [fr])
      else (CMD_ERROR, "Masterflex command failed or unknown: " ++ command, m, [fr])
    else
      (CMD_ERROR, "Masterflex command failed or unknown: " ++ command, m, [])

/-- `MasterflexDevice::getStatus` of the serial-transport sketch: an
`I` transaction when initialized (`ACTIVE`/`UNKNOWN`), else the
`NOT_INIT` marker; always reports `true`. -/
def MasterflexDevice.getStatus (m : MflexState) (bus : List Nat) : String :=
  if !m.initialized then m.id ++ ":NOT_INIT"
  else if (readMasterflexResponse 128 bus).fst = RESP_LINE then m.id ++ ":ACTIVE"
  else m.id ++ ":UNKNOWN"

-- ===========================================================================
-- Masterflex pump device (ethernet sketch): the response reader and
-- processCommand differ from the serial sketch.
-- ===========================================================================

namespace Ethernet

/-- `MasterflexDevice::readMasterflexResponse` of the ethernet sketch:
`0x06`/`0x15` clear the buffer and classify at once, `'\n'` bytes are
skipped, and batch exhaustion (the time-out) always yields `RESP_NONE`,
even when bytes were buffered. -/
def readMasterflexGo (maxLen : Nat) : List Char → List Nat → ResponseType × String
  | buf, [] => (RESP_NONE, String.mk buf)
  | buf, b :: rest =>
    if b = 6 then (RESP_ACK, "")
    else if b = 21 then (RESP_NAK, "")
    else if b = 13 then (if buf.length > 0 then RESP_LINE else RESP_NONE, String.mk buf)
    else if b = 10 then readMasterflexGo maxLen buf rest
    else readMasterflexGo maxLen
      (if buf.length + 1 < maxLen then buf ++ [Char.ofNat b] else buf) rest

/-- Ethernet `readMasterflexResponse` entered with an empty buffer. -/
def readMasterflexResponse (maxLen : Nat) (bytes : List Nat) : ResponseType × String :=
  readMasterflexGo maxLen [] bytes

/-- `MasterflexDevice::processCommand` of the ethernet sketch.  The
`INIT` handshake is inlined (reply must *begin* with `"P?"`; the
assignment core is `"I" ++ pumpId`), and — unlike the serial sketch —
there is no `initialized` guard in front of the other commands: their
frames go onto the bus regardless. -/
def MasterflexDevice.processCommand (m : MflexState) (command param1 param2 : String)
    (bus : List (List Nat)) : CommandResult × String × MflexState × List String :=
  if strcaseEq command "INIT" then
    let r1 := readMasterflexResponse 128 (bus.headD [])
    if r1.fst = RESP_LINE && "P?".data.isPrefixOf r1.snd.data then
      let fr := mfFrame m.pumpId ("I" ++ m.pumpId)
      let r2 := readMasterflexResponse 128 ((bus.drop 1).headD [])
      if r2.fst = RESP_ACK then
        (CMD_OK, "Masterflex " ++ m.id ++ " initialized",
         { m with initialized := true }, ["\x05", fr])
      else (CMD_ERROR, "Masterflex " ++ m.id ++ " init failed", m, ["\x05", fr])
    else (CMD_ERROR, "Masterflex " ++ m.id ++ " init failed", m, ["\x05"])
  else if strcaseEq command "SPEED" then
    let rpm := atofTenths param1
    let direction := param2.data.headD '+'
    let speedCmd :=
      if rpm.natAbs ≥ 10000 then "S" ++ String.mk [direction] ++ fmtInt4 rpm
      else "S" ++ String.mk [direction] ++ fmtFixed1Pad6 rpm
    let fr := mfFrame m.pumpId speedCmd
    if (readMasterflexResponse 128 (bus.headD [])).fst = RESP_ACK then
      (CMD_OK,
       "Masterflex " ++ m.id ++ " speed set to " ++ String.mk [direction] ++
         fmtFixed1 rpm ++ " RPM", m, [fr])
    else (CMD_ERROR, "Masterflex command failed or unknown: " ++ command, m, [fr])
  else if strcaseEq command "START" || strcaseEq command "GO" then
    let fr := mfFrame m.pumpId "G"
    if (readMasterflexResponse 128 (bus.headD [])).fst = RESP_ACK then
      (CMD_OK, "Masterflex " ++ m.id ++ " started", m, [fr])
    else (CMD_ERROR, "Masterflex command failed or unknown: " ++ command, m, [fr])
  else if strcaseEq command "STOP" || strcaseEq command "HALT" then
    let fr := mfFrame m.pumpId "H"
    if (readMasterflexResponse 128 (bus.headD [])).fst = RESP_ACK then
      (CMD_OK, "Masterflex " ++ m.id ++ " stopped", m, [fr])
    else (CMD_ERROR, "Masterflex command failed or unknown: " ++ command, m, [fr])
  else if strcaseEq command "REV" then
    let rev := atofHundredths param1
    let fr := mfFrame m.pumpId ("V" ++ fmtFixed2Pad8 rev)
    if (readMasterflexResponse 128 (bus.headD [])).fst = RESP_ACK then
      (CMD_OK, "Masterflex " ++ m.id ++ " revolutions set to " ++ fmtFixed2 rev, m, [fr])
    else (CMD_ERROR, "Masterflex command failed or unknown: " ++ command, m, [fr])
  else if strcaseEq command "STATUS" then
    let fr := mfFrame m.pumpId "I"
    let r := readMasterflexResponse 128 (bus.headD [])
    if r.fst = RESP_LINE then
      (CMD_DATA, "Masterflex " ++ m.id ++ " status: " ++ r.snd, m, [fr])
    else (CMD_ERROR, "Masterflex command failed or unknown: " ++ command, m, [fr])
  else if strcaseEq command "REMOTE" then
    let fr := mfFrame m.pumpId "R"
    if (readMasterflexResponse 128 (bus.headD [])).fst = RESP_ACK then
      (CMD_OK, "Masterflex " ++ m.id ++ " remote mode enabled", m, [fr])
    else (CMD_ERROR, "Masterflex command failed or unknown: " ++ command, m, [fr])
  else if strcaseEq command "LOCAL" then
    let fr := mfFrame m.pumpId "L"
    if (readMasterflexResponse 128 (bus.headD [])).fst = RESP_ACK then
      (CMD_OK, "Masterflex " ++ m.id ++ " local mode enabled", m, [fr])
    else (CMD_ERROR, "Masterflex command failed or unknown: " ++ command, m, [fr])
  else
    (CMD_ERROR, "Masterflex command failed or unknown: " ++ command, m, [])

/-- `MasterflexDevice::getStatus` of the ethernet sketch (64-byte reply
buffer, ethernet reader). -/
def MasterflexDevice.getStatus (m : MflexState) (bus : List Nat) : String :=
  if !m.initialized then m.id ++ ":NOT_INIT"
  else if (readMasterflexResponse 64 bus).fst = RESP_LINE then m.id ++ ":ACTIVE"
  else m.id ++ ":UNKNOWN"

end Ethernet

-- ===========================================================================
-- Polymorphic device, registry, parser and dispatchers
-- ===========================================================================

/-- The closed device variant (`Device` base class with its three
concrete subclasses). -/
inductive Device where
  | relay : RelayState → Device
  | vici : ViciState → Device
  | mflex : MflexState → Device
deriving DecidableEq, Repr

/-- The base-class `id` field. -/
def Device.deviceId : Device → String
  | .relay r => r.id
  | .vici v => v.id
  | .mflex m => m.id

/-- The base-class `enabled` flag. -/
def Device.enabled : Device → Bool
  | .relay r => r.enabled
  | .vici v => v.enabled
  | .mflex m => m.enabled

/-- Virtual `initialize()` dispatch. -/
def Device.initializeDevice : Device → Bool × Device
  | .relay r => let (ok, r') := RelayDevice.initializeRelay r; (ok, .relay r')
  | .vici v => let (ok, v') := ViciDevice.initializeValve v; (ok, .vici v')
  | .mflex m => let (ok, m') := MasterflexDevice.initializeMflex m; (ok, .mflex m')

/-- Virtual `processCommand` dispatch of the serial-transport sketch. -/
def Device.processCommandS (d : Device) (command param1 param2 : String)
    (bus : List (List Nat)) : CommandResult × String × Device :=
  match d with
  | .relay r =>
    let (res, msg, r') := RelayDevice.processCommand r command
    (res, msg, .relay r')
  | .vici v =>
    let (res, msg, _frames) := ViciDevice.processCommand v command param1 bus
    (res, msg, .vici v)
  | .mflex m =>
    let (res, msg, m', _frames) := MasterflexDevice.processCommand m command param1 param2 bus
    (res, msg, .mflex m')

/-- Virtual `processCommand` dispatch of the ethernet sketch. -/
def Device.processCommandE (d : Device) (command param1 param2 : String)
    (bus : List (List Nat)) : CommandResult × String × Device :=
  match d with
  | .relay r =>
    let (res, msg, r') := RelayDevice.processCommand r command
    (res, msg, .relay r')
  | .vici v =>
    let (res, msg, _frames) := ViciDevice.processCommand v command param1 bus
    (res, msg, .vici v)
  | .mflex m =>
    let (res, msg, m', _frames) := Ethernet.MasterflexDevice.processCommand m command param1 param2 bus
    (res, msg, .mflex m')

/-- Virtual `getStatus` dispatch of the serial-transport sketch.  A
relay consumes no bus batch; the valve always performs one read, the
pump one read only when initialized. -/
def Device.getStatusS : Device → List (List Nat) → String × List (List Nat)
  | .relay r, bus => (RelayDevice.getStatus r, bus)
  | .vici v, bus => (ViciDevice.getStatus v (bus.headD []), bus.drop 1)
  | .mflex m, bus =>
    if m.initialized then (MasterflexDevice.getStatus m (bus.headD []), bus.drop 1)
    else (MasterflexDevice.getStatus m [], bus)

/-- Virtual `getStatus` dispatch of the ethernet sketch. -/
def Device.getStatusE : Device → List (List Nat) → String × List (List Nat)
  | .relay r, bus => (RelayDevice.getStatus r, bus)
  | .vici v, bus => (ViciDevice.getStatus v (bus.headD []), bus.drop 1)
  | .mflex m, bus =>
    if m.initialized then (Ethernet.MasterflexDevice.getStatus m (bus.headD []), bus.drop 1)
    else (Ethernet.MasterflexDevice.getStatus m [], bus)

/-- `strncat(dst, src, B - strlen(dst) - 1)` into a `B`-byte buffer:
appends at most `B - strlen(dst) - 1` characters, so the result stays
within `B - 1` characters plus the terminator (`strlcat(dst, src, B)`
of the ethernet sketch has the same string semantics). -/
def strncatT (dst src : String) (B : Nat) : String :=
  dst ++ takeChars src (B - dst.length - 1)

/-- `DeviceManager::getAllStatus` of the serial-transport sketch:
fold over the registered devices; enabled ones contribute their status
string, separated by `", "` once the buffer is non-empty. -/
def getAllStatusAux (B : Nat) : List Device → List (List Nat) → String → String
  | [], _, acc => acc
  | d :: rest, bus, acc =>
    if d.enabled then
      let (st, bus') := d.getStatusS bus
      let acc1 := if acc.length > 0 then strncatT acc ", " B else acc
      getAllStatusAux B rest bus' (strncatT acc1 st B)
    else getAllStatusAux B rest bus acc

/-- `DeviceManager::getAllStatus` (serial sketch), destination buffer of
`B` bytes, initially cleared. -/
def DeviceManager.getAllStatus (devs : List Device) (B : Nat)
    (bus : List (List Nat)) : String :=
  getAllStatusAux B devs bus ""

/-- `DeviceManager::allStatus` of the ethernet sketch: every non-null
registered device contributes (there is no `enabled` test), with the
separator keyed on the device index rather than on the buffer. -/
def allStatusAuxE (B : Nat) : List Device → List (List Nat) → Bool → String → String
  | [], _, _, acc => acc
  | d :: rest, bus, first, acc =>
    let acc1 := if first then acc else strncatT acc ", " B
    let (st, bus') := d.getStatusE bus
    allStatusAuxE B rest bus' false (strncatT acc1 st B)

/-- `DeviceManager::allStatus` (ethernet sketch). -/
def DeviceManager.allStatus (devs : List Device) (B : Nat)
    (bus : List (List Nat)) : String :=
  allStatusAuxE B devs bus true ""

/-- `DeviceManager::addDevice` (identical in both sketches): fails on a
full registry, otherwise appends and returns the device's
`initialize()` outcome. -/
def DeviceManager.addDevice (devs : List Device) (d : Device) : Bool × List Device :=
  if devs.length ≥ 16 then (false, devs)
  else
    let (ok, d') := d.initializeDevice
    (ok, devs ++ [d'])

/-- `DeviceManager::findDevice` / `find`: first case-insensitive id
match. -/
def DeviceManager.findDevice (devs : List Device) (deviceId : String) : Option Device :=
  devs.find? (fun d => strcaseEq d.deviceId deviceId)

/-- `parseCommand` (same string semantics in both sketches): `strtok`
on `':'`, then `strncpy` into 16/16/32/32-byte buffers. -/
def parseCommand (input : String) : String × String × String × String :=
  let ts := tokensOf input
  (takeChars (ts.getD 0 "") 15, takeChars (ts.getD 1 "") 15,
   takeChars (ts.getD 2 "") 31, takeChars (ts.getD 3 "") 31)

/-- Serial-sketch invalid-format response line. -/
def invalidFormatLine : String :=
  "ERROR: Invalid command format. Use DEVICE_ID:COMMAND[:PARAM1[:PARAM2]]"

/-- Device lookup and execution of the serial sketch
(`deviceManager.findDevice` followed by `processCommand` on the found
device, whose new state replaces it in the registry).  Returns the
printed lines and the updated registry. -/
def dispatchDeviceS : List Device → String → String → String → String →
    List (List Nat) → List String × List Device
  | [], deviceId, _, _, _, _ => (["ERROR: Device not found: " ++ deviceId], [])
  | d :: rest, deviceId, command, p1, p2, bus =>
    if strcaseEq d.deviceId deviceId then
      let (res, msg, d') := d.processCommandS command p1 p2 bus
      ([tagOf res ++ msg], d' :: rest)
    else
      let (outs, rest') := dispatchDeviceS rest deviceId command p1 p2 bus
      (outs, d :: rest')

/-- `processSerialCommand` of the serial-transport sketch: trim, global
`STATUS` (512-byte aggregate buffer) and `HELP`, then parse/dispatch.
Result: the lines written to the serial port, and the updated
registry. -/
def processSerialCommand (devs : List Device) (line : String)
    (bus : List (List Nat)) : List String × List Device :=
  let cmd := trimChars line
  if strcaseEq cmd "STATUS" then
    (["DATA: " ++ DeviceManager.getAllStatus devs 512 bus], devs)
  else if strcaseEq cmd "HELP" then
    (["OK: Available commands:",
      "  STATUS - Get all device statuses",
      "  DEVICE_ID:COMMAND[:PARAM1[:PARAM2]]",
      "  Examples:",
      "    REL_01:ON",
      "    VICI_01:GOTO:A",
      "    MFLEX_01:SPEED:100.0:+"], devs)
  else
    let (deviceId, command, p1, p2) := parseCommand cmd
    if deviceId.length = 0 || command.length = 0 then
      ([invalidFormatLine], devs)
    else
      dispatchDeviceS devs deviceId command p1 p2 bus

/-- Device lookup and execution of the ethernet sketch. -/
def dispatchDeviceE : List Device → String → String → String → String →
    List (List Nat) → String × List Device
  | [], deviceId, _, _, _, _ => ("ERROR: Device not found: " ++ deviceId, [])
  | d :: rest, deviceId, command, p1, p2, bus =>
    if strcaseEq d.deviceId deviceId then
      let (res, msg, d') := d.processCommandE command p1 p2 bus
      (tagOf res ++ msg, d' :: rest)
    else
      let (out, rest') := dispatchDeviceE rest deviceId command p1 p2 bus
      (out, d :: rest')

/-- `handleCommandString` of the ethernet sketch: always exactly one
response line. -/
def handleCommandString (devs : List Device) (line : String)
    (bus : List (List Nat)) : String × List Device :=
  let cmd := trimChars line
  if strcaseEq cmd "STATUS" then
    ("DATA: " ++ DeviceManager.allStatus devs 512 bus, devs)
  else if strcaseEq cmd "HELP" then
    ("OK: Commands -> STATUS; DEVICE_ID:COMMAND[:PARAM1[:PARAM2]] e.g. REL_01:ON, VICI_01:GOTO:A, MFLEX_01:SPEED:100.0:+",
     devs)
  else
    let (deviceId, command, p1, p2) := parseCommand cmd
    if deviceId.length = 0 || command.length = 0 then
      ("ERROR: Invalid command format. Use DEVICE_ID:COMMAND[:PARAM1[:PARAM2]]", devs)
    else
      dispatchDeviceE devs deviceId command p1 p2 bus

/-- The registry built by `setup()` of the serial-transport sketch:
four relays, the valve `VICI_01` (address `'3'`), the pump `MFLEX_01`
(address `"01"`), each registered through `addDevice`. -/
def setupDevices : List Device :=
  let m1 := (DeviceManager.addDevice [] (.relay (RelayDevice.make "REL_01"))).snd
  let m2 := (DeviceManager.addDevice m1 (.relay (RelayDevice.make "REL_02"))).snd
  let m3 := (DeviceManager.addDevice m2 (.relay (RelayDevice.make "REL_03"))).snd
  let m4 := (DeviceManager.addDevice m3 (.relay (RelayDevice.make "REL_04"))).snd
  let m5 := (DeviceManager.addDevice m4 (.vici (ViciDevice.make "VICI_01" '3'))).snd
  (DeviceManager.addDevice m5 (.mflex (MasterflexDevice.make "MFLEX_01" "01"))).snd

-- ===========================================================================
-- Specification-side descriptions used by the claims
-- ===========================================================================

/-- `", "`-separated join, tail form (every element preceded by the
separator). -/
def sepAll : List String → String
  | [] => ""
  | x :: rest => ", " ++ x ++ sepAll rest

/-- `", "`-separated join of a list of status strings. -/
def joinSep : List String → String
  | [] => ""
  | x :: rest => x ++ sepAll rest

/-- The status strings of exactly the enabled devices, in registration
order, with the bus batches threaded as the serial sketch consumes
them. -/
def enabledStatusesS : List Device → List (List Nat) → List String
  | [], _ => []
  | d :: rest, bus =>
    if d.enabled then
      let (st, bus') := d.getStatusS bus
      st :: enabledStatusesS rest bus'
    else enabledStatusesS rest bus

/-- The status strings of the enabled devices for the ethernet sketch. -/
def enabledStatusesE : List Device → List (List Nat) → List String
  | [], _ => []
  | d :: rest, bus =>
    if d.enabled then
      let (st, bus') := d.getStatusE bus
      st :: enabledStatusesE rest bus'
    else enabledStatusesE rest bus

/-- The "special" bytes of the Masterflex response reader: ACK, NAK and
carriage return, each of which ends the read at once. -/
def mfSpecial (b : Nat) : Bool :=
  b = 6 || b = 21 || b = 13

-- ===========================================================================
-- Helper lemmas on the string model
-- ===========================================================================

theorem str_eq_iff_data {a b : String} : a = b ↔ a.data = b.data :=
  ⟨fun h => by rw [h], fun h => congrArg String.mk h⟩

theorem str_append_data (a b : String) : (a ++ b).data = a.data ++ b.data := by
  cases a
  cases b
  rfl

theorem str_length_data (s : String) : s.length = s.data.length := rfl

theorem takeChars_data (s : String) (n : Nat) : (takeChars s n).data = s.data.take n := rfl

theorem takeChars_of_le (s : String) (n : Nat) (h : s.length ≤ n) : takeChars s n = s := by
  rw [str_eq_iff_data, takeChars_data]
  exact List.take_of_length_le h

theorem length_takeChars_le (s : String) (n : Nat) : (takeChars s n).length ≤ n := by
  rw [str_length_data, takeChars_data]
  exact (List.length_take n s.data).trans_le (Nat.min_le_left _ _)

theorem strncatT_eq_takeChars (acc s : String) (B : Nat) (h : acc.length ≤ B - 1) :
    strncatT acc s B = takeChars (acc ++ s) (B - 1) := by
  have hd : acc.data.length ≤ B - 1 := h
  rw [str_eq_iff_data]
  show (acc ++ takeChars s (B - acc.length - 1)).data = (takeChars (acc ++ s) (B - 1)).data
  rw [str_append_data, takeChars_data, takeChars_data, str_append_data,
    List.take_append_eq_append_take, List.take_of_length_le hd]
  congr 1
  rw [show acc.length = acc.data.length from rfl, Nat.sub_right_comm]

theorem takeChars_absorb (x y : String) (n : Nat) :
    takeChars (takeChars x n ++ y) n = takeChars (x ++ y) n := by
  rw [str_eq_iff_data, takeChars_data, takeChars_data, str_append_data, str_append_data,
    takeChars_data, List.take_append_eq_append_take, List.take_append_eq_append_take,
    List.take_take, Nat.min_self, List.length_take]
  congr 2
  rcases Nat.le_total x.data.length n with h | h
  · rw [Nat.min_eq_right h]
  · rw [Nat.min_eq_left h, Nat.sub_eq_zero_of_le h, Nat.sub_self]

theorem takeChars_ne_empty (s : String) (n : Nat) (hs : s.data ≠ []) (hn : 1 ≤ n) :
    (takeChars s n).data ≠ [] := by
  rw [takeChars_data]
  rcases hl : s.data with _ | ⟨c, t⟩
  · exact absurd hl hs
  · cases n with
    | zero => omega
    | succ m => simp

theorem strncatT_length_le (acc s : String) (B : Nat) (h : acc.length ≤ B - 1) :
    (strncatT acc s B).length ≤ B - 1 := by
  rw [strncatT_eq_takeChars acc s B h]
  exact length_takeChars_le _ _

theorem str_append_assoc (a b c : String) : a ++ b ++ c = a ++ (b ++ c) := by
  rw [str_eq_iff_data, str_append_data, str_append_data, str_append_data, str_append_data,
    List.append_assoc]

-- ===========================================================================
-- Claim theorems
-- ===========================================================================

/-- C10: `RelayDevice::initialize` always succeeds, drives both the
output pin and the indicator pin low, resets the stored state to off and
sets `enabled`, so that a relay — also when registered through
`DeviceManager::addDevice`'s `initialize()` call — reports status
`<id>:OFF` before any command is processed. -/
theorem C10_relay_initialization (r : RelayState) :
    RelayDevice.initializeRelay r =
      (true, { id := r.id, pinLevel := false, ledLevel := false,
               state := false, enabled := true }) ∧
    RelayDevice.getStatus (RelayDevice.initializeRelay r).snd = r.id ++ ":OFF" ∧
    Device.initializeDevice (Device.relay r) =
      (true, Device.relay { id := r.id, pinLevel := false, ledLevel := false,
                            state := false, enabled := true }) := by
  refine ⟨rfl, ?_, rfl⟩
  show r.id ++ ":" ++ "OFF" = r.id ++ ":OFF"
  rw [str_append_assoc]
  exact congrArg (r.id ++ ·) (by decide)

/-- C9: relay `ON` turns the relay on, `OFF` turns it off, `TOGGLE`
flips it, each confirming with `Ok`; any other command yields an Error
echoing the offending token; the sequence `ON`, `OFF`, `TOGGLE` from the
initialized (off) state ends with the relay on and its status string
equal to (hence containing) `<id>:ON`. -/
theorem C9_relay_commands (r : RelayState) (c : String)
    (hc : (strcaseEq c "ON" || strcaseEq c "OFF" || strcaseEq c "TOGGLE") = false) :
    RelayDevice.processCommand r "ON" =
      (CMD_OK, "Relay " ++ r.id ++ " ON",
       { r with pinLevel := true, ledLevel := true, state := true }) ∧
    RelayDevice.processCommand r "OFF" =
      (CMD_OK, "Relay " ++ r.id ++ " OFF",
       { r with pinLevel := false, ledLevel := false, state := false }) ∧
    RelayDevice.processCommand r "TOGGLE" =
      (CMD_OK, "Relay " ++ r.id ++ " " ++ (if !r.state then "ON" else "OFF"),
       { r with state := !r.state, pinLevel := !r.state, ledLevel := !r.state }) ∧
    RelayDevice.processCommand r c = (CMD_ERROR, "Unknown relay command: " ++ c, r) ∧
    (let r0 := (RelayDevice.initializeRelay r).snd
     let r1 := (RelayDevice.processCommand r0 "ON").2.2
     let r2 := (RelayDevice.processCommand r1 "OFF").2.2
     let r3 := (RelayDevice.processCommand r2 "TOGGLE").2.2
     r1.state = true ∧ r2.state = false ∧ r3.state = true ∧
     RelayDevice.getStatus r3 = r.id ++ ":ON") := by
  simp only [Bool.or_eq_false_iff] at hc
  obtain ⟨⟨h1, h2⟩, h3⟩ := hc
  refine ⟨rfl, ?_, ?_, ?_, ?_⟩
  · simp [RelayDevice.processCommand, show strcaseEq "OFF" "ON" = false from by decide,
      show strcaseEq "OFF" "OFF" = true from by decide]
  · simp [RelayDevice.processCommand, show strcaseEq "TOGGLE" "ON" = false from by decide,
      show strcaseEq "TOGGLE" "OFF" = false from by decide,
      show strcaseEq "TOGGLE" "TOGGLE" = true from by decide]
  · simp [RelayDevice.processCommand, h1, h2, h3]
  · simp [RelayDevice.processCommand, RelayDevice.initializeRelay, RelayDevice.getStatus,
      show strcaseEq "ON" "ON" = true from by decide,
      show strcaseEq "OFF" "ON" = false from by decide,
      show strcaseEq "OFF" "OFF" = true from by decide,
      show strcaseEq "TOGGLE" "ON" = false from by decide,
      show strcaseEq "TOGGLE" "OFF" = false from by decide,
      show strcaseEq "TOGGLE" "TOGGLE" = true from by decide,
      str_append_assoc, show (":" ++ "ON" : String) = ":ON" from by decide]

/-- Witness for C9 at a concrete relay and the unknown command
`"BLINK"`. -/
theorem C9_relay_commands_witness :
    (strcaseEq "BLINK" "ON" || strcaseEq "BLINK" "OFF" || strcaseEq "BLINK" "TOGGLE") = false ∧
    RelayDevice.processCommand (RelayDevice.make "REL_01") "BLINK" =
      (CMD_ERROR, "Unknown relay command: BLINK", RelayDevice.make "REL_01") := by
  refine ⟨by decide, ?_⟩
  have h := (C9_relay_commands (RelayDevice.make "REL_01") "BLINK" (by decide)).2.2.2.1
  simpa using h

/-- C7: `DeviceManager::addDevice` on a registry already holding 16
devices fails and leaves the count, the stored entries and their
identifiers unchanged; below capacity it appends the device and returns
the outcome of its `initialize()`. -/
theorem C7_registry_capacity (devs : List Device) (d : Device) :
    (devs.length = 16 →
      DeviceManager.addDevice devs d = (false, devs) ∧
      (DeviceManager.addDevice devs d).snd.length = devs.length ∧
      (DeviceManager.addDevice devs d).snd.map Device.deviceId =
        devs.map Device.deviceId) ∧
    (devs.length < 16 →
      DeviceManager.addDevice devs d =
        (d.initializeDevice.fst, devs ++ [d.initializeDevice.snd])) := by
  constructor
  · intro h
    have h16 : devs.length ≥ 16 := h.ge
    simp [DeviceManager.addDevice, h16]
  · intro h
    have h16 : ¬ devs.length ≥ 16 := by omega
    simp [DeviceManager.addDevice, h16]

/-- Witness for C7: a full registry of 16 relays rejects a 17th device;
the empty registry accepts one and reports its `initialize()` success. -/
theorem C7_registry_capacity_witness :
    (List.replicate 16 (Device.relay (RelayDevice.make "REL_01"))).length = 16 ∧
    DeviceManager.addDevice (List.replicate 16 (Device.relay (RelayDevice.make "REL_01")))
        (Device.vici (ViciDevice.make "VICI_01" '3')) =
      (false, List.replicate 16 (Device.relay (RelayDevice.make "REL_01"))) ∧
    DeviceManager.addDevice [] (Device.vici (ViciDevice.make "VICI_01" '3')) =
      (true, [Device.vici { id := "VICI_01", viciId := '3', enabled := true }]) := by
  refine ⟨by decide, ?_, ?_⟩
  · exact ((C7_registry_capacity _ _).1 (by decide)).1
  · have h := (C7_registry_capacity []
      (Device.vici (ViciDevice.make "VICI_01" '3'))).2 (by decide)
    simpa using h

/-- C1 (amended): in the serial-transport controller, while
`initialized` is false every pump command other than `INIT` returns
Error with the `not initialized` message, transmits no frame and leaves
the pump state unchanged — regardless of what the bus would answer.
(The ethernet variant omits this guard; see the counterexample.) -/
theorem C1_pump_uninitialized_guard (m : MflexState) (command p1 p2 : String)
    (bus : List (List Nat)) (hinit : m.initialized = false)
    (hcmd : strcaseEq command "INIT" = false) :
    MasterflexDevice.processCommand m command p1 p2 bus =
      (CMD_ERROR, "Masterflex " ++ m.id ++ " not initialized", m, []) := by
  simp [MasterflexDevice.processCommand, hcmd, hinit]

/-- Witness for C1 at the freshly constructed pump, a `START` command
and a bus that would acknowledge. -/
theorem C1_pump_uninitialized_guard_witness :
    (MasterflexDevice.make "MFLEX_01" "01").initialized = false ∧
    strcaseEq "START" "INIT" = false ∧
    MasterflexDevice.processCommand (MasterflexDevice.make "MFLEX_01" "01")
        "START" "" "" [[6]] =
      (CMD_ERROR, "Masterflex MFLEX_01 not initialized",
       MasterflexDevice.make "MFLEX_01" "01", []) := by
  refine ⟨rfl, by decide, ?_⟩
  have h := C1_pump_uninitialized_guard (MasterflexDevice.make "MFLEX_01" "01")
    "START" "" "" [[6]] rfl (by decide)
  simpa using h

/-- Counterexample to C1 as stated: the ethernet sketch's pump executes
`START` while uninitialized — the `G` frame is transmitted and, with an
ACK on the bus, the command returns Ok instead of a `not initialized`
Error. -/
theorem C1_counterexample :
    (MasterflexDevice.make "MFLEX_01" "01").initialized = false ∧
    Ethernet.MasterflexDevice.processCommand (MasterflexDevice.make "MFLEX_01" "01")
        "START" "" "" [[6]] =
      (CMD_OK, "Masterflex MFLEX_01 started",
       MasterflexDevice.make "MFLEX_01" "01", ["\x02P01G\r"]) := by
  exact ⟨rfl, by decide⟩

/-- The success condition of the serial-sketch `INIT` handshake: the
ENQ reply classifies as a data line in which `"P?"` occurs, and the
assignment reply classifies as ACK. -/
def serialInitCond (bus : List (List Nat)) : Prop :=
  (readMasterflexResponse 96 (bus.headD [])).fst = RESP_LINE ∧
  hasReqMarker (readMasterflexResponse 96 (bus.headD [])).snd = true ∧
  (readMasterflexResponse 96 ((bus.drop 1).headD [])).fst = RESP_ACK

/-- The success condition of the ethernet-sketch `INIT` handshake: the
ENQ reply classifies as a data line that *begins* with `"P?"`, and the
assignment reply classifies as ACK. -/
def ethInitCond (bus : List (List Nat)) : Prop :=
  (Ethernet.readMasterflexResponse 128 (bus.headD [])).fst = RESP_LINE ∧
  "P?".data.isPrefixOf (Ethernet.readMasterflexResponse 128 (bus.headD [])).snd.data = true ∧
  (Ethernet.readMasterflexResponse 128 ((bus.drop 1).headD [])).fst = RESP_ACK

theorem serialInit_spec (m : MflexState) (p1 p2 : String) (bus : List (List Nat))
    (hinit : m.initialized = false) :
    ((MasterflexDevice.processCommand m "INIT" p1 p2 bus).1 = CMD_OK ↔ serialInitCond bus) ∧
    ((MasterflexDevice.processCommand m "INIT" p1 p2 bus).2.2.1.initialized = true ↔
      serialInitCond bus) ∧
    ((MasterflexDevice.processCommand m "INIT" p1 p2 bus).1 ≠ CMD_OK →
      (MasterflexDevice.processCommand m "INIT" p1 p2 bus).1 = CMD_ERROR ∧
      (MasterflexDevice.processCommand m "INIT" p1 p2 bus).2.2.1 = m) := by
  have hINIT : strcaseEq "INIT" "INIT" = true := by decide
  by_cases hA : (readMasterflexResponse 96 (bus.head?.getD [])).fst = RESP_LINE
  · by_cases hB : hasReqMarker (readMasterflexResponse 96 (bus.head?.getD [])).snd = true
    · by_cases hC : (readMasterflexResponse 96 (bus[1]?.getD [])).fst = RESP_ACK
      · simp [MasterflexDevice.processCommand, MasterflexDevice.initializePump,
          hINIT, hA, hB, hC, serialInitCond]
      · simp [MasterflexDevice.processCommand, MasterflexDevice.initializePump,
          hINIT, hA, hB, hC, serialInitCond, hinit]
    · simp [MasterflexDevice.processCommand, MasterflexDevice.initializePump,
        hINIT, hA, hB, serialInitCond, hinit]
  · simp [MasterflexDevice.processCommand, MasterflexDevice.initializePump,
      hINIT, hA, serialInitCond, hinit]

theorem ethInit_spec (m : MflexState) (p1 p2 : String) (bus : List (List Nat))
    (hinit : m.initialized = false) :
    ((Ethernet.MasterflexDevice.processCommand m "INIT" p1 p2 bus).1 = CMD_OK ↔
      ethInitCond bus) ∧
    ((Ethernet.MasterflexDevice.processCommand m "INIT" p1 p2 bus).2.2.1.initialized = true ↔
      ethInitCond bus) ∧
    ((Ethernet.MasterflexDevice.processCommand m "INIT" p1 p2 bus).1 ≠ CMD_OK →
      (Ethernet.MasterflexDevice.processCommand m "INIT" p1 p2 bus).1 = CMD_ERROR ∧
      (Ethernet.MasterflexDevice.processCommand m "INIT" p1 p2 bus).2.2.1 = m) := by
  have hINIT : strcaseEq "INIT" "INIT" = true := by decide
  by_cases hA : (Ethernet.readMasterflexResponse 128 (bus.head?.getD [])).fst = RESP_LINE
  · by_cases hB : "P?".data.isPrefixOf
        (Ethernet.readMasterflexResponse 128 (bus.head?.getD [])).snd.data = true
    · by_cases hC : (Ethernet.readMasterflexResponse 128 (bus[1]?.getD [])).fst = RESP_ACK
      · simp [Ethernet.MasterflexDevice.processCommand, hINIT, hA, hB, hC, ethInitCond]
      · simp [Ethernet.MasterflexDevice.processCommand, hINIT, hA, hB, hC, ethInitCond, hinit]
    · simp [Ethernet.MasterflexDevice.processCommand, hINIT, hA, hB, ethInitCond, hinit]
  · simp [Ethernet.MasterflexDevice.processCommand, hINIT, hA, ethInitCond, hinit]

/-- C2 (amended): the pump's `INIT` returns Ok and sets `initialized`
exactly when the ENQ reply classifies as a data line carrying the
`"P?"` requesting-address marker — anywhere in the line for the
serial-transport sketch (`strstr`), as a prefix for the ethernet sketch
(`strncmp`) — and the address-assignment reply classifies as ACK; under
any other reply sequence `INIT` returns Error and the state (hence
`initialized = false`) is unchanged. -/
theorem C2_init_handshake (m : MflexState) (p1 p2 : String) (bus : List (List Nat))
    (hinit : m.initialized = false) :
    ((MasterflexDevice.processCommand m "INIT" p1 p2 bus).1 = CMD_OK ↔ serialInitCond bus) ∧
    ((MasterflexDevice.processCommand m "INIT" p1 p2 bus).2.2.1.initialized = true ↔
      serialInitCond bus) ∧
    ((MasterflexDevice.processCommand m "INIT" p1 p2 bus).1 ≠ CMD_OK →
      (MasterflexDevice.processCommand m "INIT" p1 p2 bus).1 = CMD_ERROR ∧
      (MasterflexDevice.processCommand m "INIT" p1 p2 bus).2.2.1 = m) ∧
    ((Ethernet.MasterflexDevice.processCommand m "INIT" p1 p2 bus).1 = CMD_OK ↔
      ethInitCond bus) ∧
    ((Ethernet.MasterflexDevice.processCommand m "INIT" p1 p2 bus).2.2.1.initialized = true ↔
      ethInitCond bus) ∧
    ((Ethernet.MasterflexDevice.processCommand m "INIT" p1 p2 bus).1 ≠ CMD_OK →
      (Ethernet.MasterflexDevice.processCommand m "INIT" p1 p2 bus).1 = CMD_ERROR ∧
      (Ethernet.MasterflexDevice.processCommand m "INIT" p1 p2 bus).2.2.1 = m) := by
  obtain ⟨s1, s2, s3⟩ := serialInit_spec m p1 p2 bus hinit
  obtain ⟨e1, e2, e3⟩ := ethInit_spec m p1 p2 bus hinit
  exact ⟨s1, s2, s3, e1, e2, e3⟩

/-- Witness for C2 at the fresh pump with the handshake reply sequence
`"P?0" CR` then ACK (both variants succeed on it). -/
theorem C2_init_handshake_witness :
    (MasterflexDevice.make "MFLEX_01" "01").initialized = false ∧
    (MasterflexDevice.processCommand (MasterflexDevice.make "MFLEX_01" "01")
      "INIT" "" "" [[80, 63, 48, 13], [6]]).1 = CMD_OK ∧
    (Ethernet.MasterflexDevice.processCommand (MasterflexDevice.make "MFLEX_01" "01")
      "INIT" "" "" [[80, 63, 48, 13], [6]]).1 = CMD_OK := by
  refine ⟨rfl, ?_, ?_⟩
  · exact (C2_init_handshake (MasterflexDevice.make "MFLEX_01" "01") "" ""
      [[80, 63, 48, 13], [6]] rfl).1.mpr (by constructor <;> decide)
  · exact (C2_init_handshake (MasterflexDevice.make "MFLEX_01" "01") "" ""
      [[80, 63, 48, 13], [6]] rfl).2.2.2.1.mpr (by constructor <;> decide)

/-- Counterexample to C2 as stated: in the serial-transport sketch an
ENQ reply line `"xP?0"` — which does *not* begin with `"P?"` — still
completes the handshake (the code tests `strstr`, not a prefix), so
`INIT` returns Ok and `initialized` becomes true under a reply sequence
the claim says must yield Error. -/
theorem C2_counterexample :
    (readMasterflexResponse 96 [120, 80, 63, 48, 13]).fst = RESP_LINE ∧
    "P?".data.isPrefixOf (readMasterflexResponse 96 [120, 80, 63, 48, 13]).snd.data = false ∧
    (MasterflexDevice.processCommand (MasterflexDevice.make "MFLEX_01" "01")
      "INIT" "" "" [[120, 80, 63, 48, 13], [6]]).1 = CMD_OK ∧
    (MasterflexDevice.processCommand (MasterflexDevice.make "MFLEX_01" "01")
      "INIT" "" "" [[120, 80, 63, 48, 13], [6]]).2.2.1.initialized = true := by
  decide

/-- C8: the valve's motion commands `GOTO`, `TOGGLE`, `HOME`, `CW`,
`CCW` return Ok after transmitting their frame, for *every* bus
delivery (no confirmation bytes are awaited); the `POSITION` and
`STATUS` queries return Data carrying the received payload when the
read yields a line, and Error when no response line is received. -/
theorem C8_valve_commands (v : ViciState) (p1 : String) (bus : List (List Nat)) :
    ViciDevice.processCommand v "GOTO" p1 bus =
      (CMD_OK, "VICI " ++ v.id ++ " moved to " ++ p1,
       [viciFrame v.viciId (takeChars ("GO" ++ p1) 15)]) ∧
    ViciDevice.processCommand v "TOGGLE" p1 bus =
      (CMD_OK, "VICI " ++ v.id ++ " toggled", [viciFrame v.viciId "TO"]) ∧
    ViciDevice.processCommand v "HOME" p1 bus =
      (CMD_OK, "VICI " ++ v.id ++ " homed", [viciFrame v.viciId "HM"]) ∧
    ViciDevice.processCommand v "CW" p1 bus =
      (CMD_OK, "VICI " ++ v.id ++ " moved CW", [viciFrame v.viciId "CW"]) ∧
    ViciDevice.processCommand v "CCW" p1 bus =
      (CMD_OK, "VICI " ++ v.id ++ " moved CCW", [viciFrame v.viciId "CC"]) ∧
    (∀ s, readLine 128 (bus.head?.getD []) = some s →
      ViciDevice.processCommand v "POSITION" p1 bus =
        (CMD_DATA, "VICI " ++ v.id ++ " position: " ++ s, [viciFrame v.viciId "CP"])) ∧
    (readLine 128 (bus.head?.getD []) = none →
      ViciDevice.processCommand v "POSITION" p1 bus =
        (CMD_ERROR, "VICI command failed or unknown: " ++ "POSITION",
         [viciFrame v.viciId "CP"])) ∧
    (∀ s, readLine 128 (bus.head?.getD []) = some s →
      ViciDevice.processCommand v "STATUS" p1 bus =
        (CMD_DATA, "VICI " ++ v.id ++ " status: " ++ s, [viciFrame v.viciId "STAT"])) ∧
    (readLine 128 (bus.head?.getD []) = none →
      ViciDevice.processCommand v "STATUS" p1 bus =
        (CMD_ERROR, "VICI command failed or unknown: " ++ "STATUS",
         [viciFrame v.viciId "STAT"])) := by
  refine ⟨?_, ?_, ?_, ?_, ?_, ?_, ?_, ?_, ?_⟩
  · simp [ViciDevice.processCommand, show strcaseEq "GOTO" "GOTO" = true from by decide]
  · simp [ViciDevice.processCommand, show strcaseEq "TOGGLE" "GOTO" = false from by decide,
      show strcaseEq "TOGGLE" "TOGGLE" = true from by decide]
  · simp [ViciDevice.processCommand, show strcaseEq "HOME" "GOTO" = false from by decide,
      show strcaseEq "HOME" "TOGGLE" = false from by decide,
      show strcaseEq "HOME" "HOME" = true from by decide]
  · simp [ViciDevice.processCommand, show strcaseEq "CW" "GOTO" = false from by decide,
      show strcaseEq "CW" "TOGGLE" = false from by decide,
      show strcaseEq "CW" "HOME" = false from by decide,
      show strcaseEq "CW" "POSITION" = false from by decide,
      show strcaseEq "CW" "STATUS" = false from by decide,
      show strcaseEq "CW" "CW" = true from by decide]
  · simp [ViciDevice.processCommand, show strcaseEq "CCW" "GOTO" = false from by decide,
      show strcaseEq "CCW" "TOGGLE" = false from by decide,
      show strcaseEq "CCW" "HOME" = false from by decide,
      show strcaseEq "CCW" "POSITION" = false from by decide,
      show strcaseEq "CCW" "STATUS" = false from by decide,
      show strcaseEq "CCW" "CW" = false from by decide,
      show strcaseEq "CCW" "CCW" = true from by decide]
  · intro s hs
    simp [ViciDevice.processCommand, show strcaseEq "POSITION" "GOTO" = false from by decide,
      show strcaseEq "POSITION" "TOGGLE" = false from by decide,
      show strcaseEq "POSITION" "HOME" = false from by decide,
      show strcaseEq "POSITION" "POSITION" = true from by decide, hs]
  · intro hs
    simp [ViciDevice.processCommand, show strcaseEq "POSITION" "GOTO" = false from by decide,
      show strcaseEq "POSITION" "TOGGLE" = false from by decide,
      show strcaseEq "POSITION" "HOME" = false from by decide,
      show strcaseEq "POSITION" "POSITION" = true from by decide, hs]
  · intro s hs
    simp [ViciDevice.processCommand, show strcaseEq "STATUS" "GOTO" = false from by decide,
      show strcaseEq "STATUS" "TOGGLE" = false from by decide,
      show strcaseEq "STATUS" "HOME" = false from by decide,
      show strcaseEq "STATUS" "POSITION" = false from by decide,
      show strcaseEq "STATUS" "STATUS" = true from by decide, hs]
  · intro hs
    simp [ViciDevice.processCommand, show strcaseEq "STATUS" "GOTO" = false from by decide,
      show strcaseEq "STATUS" "TOGGLE" = false from by decide,
      show strcaseEq "STATUS" "HOME" = false from by decide,
      show strcaseEq "STATUS" "POSITION" = false from by decide,
      show strcaseEq "STATUS" "STATUS" = true from by decide, hs]

/-- Witness for C8 at the default valve: `POSITION` with the bus
delivering `"B" CR` yields Data with payload `B`, and `GOTO` returns Ok
even on a silent bus. -/
theorem C8_valve_commands_witness :
    readLine 128 [66, 13] = some "B" ∧
    ViciDevice.processCommand (ViciDevice.make "VICI_01" '3') "POSITION" "" [[66, 13]] =
      (CMD_DATA, "VICI VICI_01 position: B", ["/3CP\r"]) ∧
    ViciDevice.processCommand (ViciDevice.make "VICI_01" '3') "GOTO" "B" [] =
      (CMD_OK, "VICI VICI_01 moved to B", ["/3GOB\r"]) := by
  refine ⟨by decide, ?_, ?_⟩
  · have h := (C8_valve_commands (ViciDevice.make "VICI_01" '3') "" [[66, 13]]).2.2.2.2.2.1
      "B" (by decide)
    simpa using h
  · have h := (C8_valve_commands (ViciDevice.make "VICI_01" '3') "B" []).1
    simpa using h

theorem readMasterflexGo_spec (maxLen : Nat) (h2 : 2 ≤ maxLen) :
    ∀ (bytes : List Nat) (buf : List Char),
      ((readMasterflexGo maxLen buf bytes).fst = RESP_ACK ↔
        bytes.find? mfSpecial = some 6) ∧
      ((readMasterflexGo maxLen buf bytes).fst = RESP_NAK ↔
        bytes.find? mfSpecial = some 21) ∧
      ((readMasterflexGo maxLen buf bytes).fst = RESP_LINE ↔
        (bytes.find? mfSpecial ≠ some 6 ∧ bytes.find? mfSpecial ≠ some 21 ∧
         (buf ≠ [] ∨ bytes.takeWhile (fun b => !mfSpecial b) ≠ []))) := by
  intro bytes
  induction bytes with
  | nil =>
    intro buf
    by_cases hbuf : buf = []
    · subst hbuf
      refine ⟨?_, ?_, ?_⟩ <;> simp [readMasterflexGo, List.find?]
    · have hlen : buf.length > 0 := List.length_pos.mpr hbuf
      refine ⟨?_, ?_, ?_⟩ <;> simp [readMasterflexGo, List.find?, hlen, hbuf]
  | cons b rest ih =>
    intro buf
    by_cases hb6 : b = 6
    · subst hb6
      refine ⟨?_, ?_, ?_⟩ <;>
        simp [readMasterflexGo, List.find?, show mfSpecial 6 = true from by decide]
    · by_cases hb21 : b = 21
      · subst hb21
        refine ⟨?_, ?_, ?_⟩ <;>
          simp [readMasterflexGo, List.find?, show mfSpecial 21 = true from by decide]
      · by_cases hb13 : b = 13
        · subst hb13
          by_cases hbuf : buf = []
          · subst hbuf
            refine ⟨?_, ?_, ?_⟩ <;>
              simp [readMasterflexGo, List.find?, show mfSpecial 13 = true from by decide,
                List.takeWhile_cons]
          · have hlen : buf.length > 0 := List.length_pos.mpr hbuf
            refine ⟨?_, ?_, ?_⟩ <;>
              simp [readMasterflexGo, List.find?, show mfSpecial 13 = true from by decide,
                List.takeWhile_cons, hlen, hbuf]
        · have hmf : mfSpecial b = false := by
            simp [mfSpecial, hb6, hb21, hb13]
          have hnew : (if buf.length + 1 < maxLen then buf ++ [Char.ofNat b] else buf) ≠ [] := by
            by_cases hlt : buf.length + 1 < maxLen
            · simp [hlt]
            · simp only [hlt, if_false]
              cases buf with
              | nil => exact absurd (by simpa using Nat.lt_of_lt_of_le Nat.one_lt_two h2) hlt
              | cons c t => simp
          obtain ⟨ihA, ihN, ihL⟩ :=
            ih (if buf.length + 1 < maxLen then buf ++ [Char.ofNat b] else buf)
          have hgo : readMasterflexGo maxLen buf (b :: rest) =
              readMasterflexGo maxLen
                (if buf.length + 1 < maxLen then buf ++ [Char.ofNat b] else buf) rest := by
            simp [readMasterflexGo, hb6, hb21, hb13]
          refine ⟨?_, ?_, ?_⟩
          · rw [hgo, ihA]
            simp [List.find?, hmf]
          · rw [hgo, ihN]
            simp [List.find?, hmf]
          · rw [hgo, ihL]
            simp [List.find?, List.takeWhile_cons, hmf, hnew]

/-- C4 (amended): the serial-transport pump response reader, on the
byte sequence delivered within the time-out window, classifies ACK
exactly when a `0x06` byte arrives before any `0x15` or CR, NAK exactly
when a `0x15` arrives first, a data line exactly when neither arrives
and at least one other byte precedes the first CR (a CR after payload,
or the window closing with buffered payload), and none exactly when
neither ACK nor NAK arrives and no payload byte precedes the first CR —
not, as stated, only when "nothing is received".  (The ethernet variant
differs again: it returns none whenever the window closes, even over
buffered payload.) -/
theorem C4_reader_classification (maxLen : Nat) (bytes : List Nat) (h2 : 2 ≤ maxLen) :
    ((readMasterflexResponse maxLen bytes).fst = RESP_ACK ↔
      bytes.find? mfSpecial = some 6) ∧
    ((readMasterflexResponse maxLen bytes).fst = RESP_NAK ↔
      bytes.find? mfSpecial = some 21) ∧
    ((readMasterflexResponse maxLen bytes).fst = RESP_LINE ↔
      (bytes.find? mfSpecial ≠ some 6 ∧ bytes.find? mfSpecial ≠ some 21 ∧
       bytes.takeWhile (fun b => !mfSpecial b) ≠ [])) ∧
    ((readMasterflexResponse maxLen bytes).fst = RESP_NONE ↔
      (bytes.find? mfSpecial ≠ some 6 ∧ bytes.find? mfSpecial ≠ some 21 ∧
       bytes.takeWhile (fun b => !mfSpecial b) = [])) := by
  obtain ⟨hA, hN, hL⟩ := readMasterflexGo_spec maxLen h2 bytes []
  have hL' : (readMasterflexResponse maxLen bytes).fst = RESP_LINE ↔
      (bytes.find? mfSpecial ≠ some 6 ∧ bytes.find? mfSpecial ≠ some 21 ∧
       bytes.takeWhile (fun b => !mfSpecial b) ≠ []) := by
    rw [readMasterflexResponse, hL]
    simp
  refine ⟨hA, hN, hL', ?_⟩
  have hsplit : ((readMasterflexResponse maxLen bytes).fst = RESP_NONE) ↔
      (¬((readMasterflexResponse maxLen bytes).fst = RESP_ACK) ∧
       ¬((readMasterflexResponse maxLen bytes).fst = RESP_NAK) ∧
       ¬((readMasterflexResponse maxLen bytes).fst = RESP_LINE)) := by
    generalize (readMasterflexResponse maxLen bytes).fst = t
    rcases t with _ | _ | _ | _ <;> decide
  have hA' : (readMasterflexResponse maxLen bytes).fst = RESP_ACK ↔
      bytes.find? mfSpecial = some 6 := hA
  have hN' : (readMasterflexResponse maxLen bytes).fst = RESP_NAK ↔
      bytes.find? mfSpecial = some 21 := hN
  rw [hsplit, hA', hN', hL']
  constructor
  · rintro ⟨d1, d2, d3⟩
    refine ⟨d1, d2, ?_⟩
    by_contra hne
    exact d3 ⟨d1, d2, hne⟩
  · rintro ⟨c1, c2, c3⟩
    exact ⟨c1, c2, fun h => h.2.2 c3⟩

/-- Witness for C4 at the reply `"A" CR` into a 128-byte buffer: a data
line. -/
theorem C4_reader_classification_witness :
    (2 ≤ 128) ∧ (readMasterflexResponse 128 [65, 13]).fst = RESP_LINE := by
  refine ⟨by decide, ?_⟩
  exact (C4_reader_classification 128 [65, 13] (by decide)).2.2.1.mpr (by decide)

/-- Counterexample to C4 as stated: the byte sequence `0x41 0x06` — not
a single `0x06` byte — still classifies as ACK (the reader accepts an
ACK byte after arbitrary buffered payload). -/
theorem C4_counterexample :
    (readMasterflexResponse 128 [65, 6]).fst = RESP_ACK ∧ [65, 6] ≠ [6] := by
  decide

theorem parseCommand_empty_command (s : String)
    (htok : (tokensOf s).length < 2) :
    takeChars ((tokensOf s)[1]?.getD "") 15 = "" := by
  rcases h : tokensOf s with _ | ⟨a, _ | ⟨b, t⟩⟩
  · rfl
  · rfl
  · rw [h] at htok
    simp only [List.length_cons] at htok
    omega

theorem processSerial_malformed (devs : List Device) (line : String) (bus : List (List Nat))
    (hS : strcaseEq (trimChars line) "STATUS" = false)
    (hH : strcaseEq (trimChars line) "HELP" = false)
    (htok : (tokensOf (trimChars line)).length < 2) :
    processSerialCommand devs line bus = ([invalidFormatLine], devs) := by
  have hcmd := parseCommand_empty_command (trimChars line) htok
  simp [processSerialCommand, hS, hH, parseCommand, hcmd]

theorem handleCommand_malformed (devs : List Device) (line : String) (bus : List (List Nat))
    (hS : strcaseEq (trimChars line) "STATUS" = false)
    (hH : strcaseEq (trimChars line) "HELP" = false)
    (htok : (tokensOf (trimChars line)).length < 2) :
    handleCommandString devs line bus = (invalidFormatLine, devs) := by
  have hcmd := parseCommand_empty_command (trimChars line) htok
  simp [handleCommandString, hS, hH, parseCommand, hcmd, invalidFormatLine]

/-- C6 (amended): when `strtok`-style tokenization on `':'` (which
coalesces consecutive separators and skips leading ones, so fields are
never blank) yields fewer than two tokens — device id or command
missing — both dispatchers return the invalid-format Error response and
leave every device untouched. -/
theorem C6_missing_tokens_format_error (devs : List Device) (line : String)
    (bus : List (List Nat))
    (hS : strcaseEq (trimChars line) "STATUS" = false)
    (hH : strcaseEq (trimChars line) "HELP" = false)
    (htok : (tokensOf (trimChars line)).length < 2) :
    processSerialCommand devs line bus = ([invalidFormatLine], devs) ∧
    handleCommandString devs line bus = (invalidFormatLine, devs) :=
  ⟨processSerial_malformed devs line bus hS hH htok,
   handleCommand_malformed devs line bus hS hH htok⟩

/-- Witness for C6 at the line `"REL_01"` (a device id but no command)
against the empty registry. -/
theorem C6_missing_tokens_format_error_witness :
    strcaseEq (trimChars "REL_01") "STATUS" = false ∧
    strcaseEq (trimChars "REL_01") "HELP" = false ∧
    (tokensOf (trimChars "REL_01")).length < 2 ∧
    processSerialCommand [] "REL_01" [] = ([invalidFormatLine], []) := by
  refine ⟨by decide, by decide, by decide, ?_⟩
  exact (C6_missing_tokens_format_error [] "REL_01" [] (by decide) (by decide) (by decide)).1

/-- Counterexample to C6 as stated: splitting the line `":REL_01:ON"`
on `':'` leaves the device-id field blank, yet the dispatcher does not
report a format error — `strtok` skips the blank field, `REL_01` is
found, its `processCommand` runs and the relay's state changes. -/
theorem C6_counterexample :
    (splitFields ":REL_01:ON".data []).headD "X" = "" ∧
    (processSerialCommand setupDevices ":REL_01:ON" []).fst = ["OK: Relay REL_01 ON"] ∧
    (processSerialCommand setupDevices ":REL_01:ON" []).snd ≠ setupDevices := by
  decide

theorem notFound_tagged (did : String) :
    "ERROR: Device not found: " ++ did = tagOf CMD_ERROR ++ ("Device not found: " ++ did) := by
  rw [tagOf, ← str_append_assoc]
  exact congrArg (· ++ did) (by decide)

theorem dispatchDeviceS_shape (did c p1 p2 : String) (bus : List (List Nat)) :
    ∀ devs : List Device, ∃ res msg devs',
      dispatchDeviceS devs did c p1 p2 bus = ([tagOf res ++ msg], devs') := by
  intro devs
  induction devs with
  | nil =>
    refine ⟨CMD_ERROR, "Device not found: " ++ did, [], ?_⟩
    rw [dispatchDeviceS, ← notFound_tagged]
  | cons d rest ih =>
    by_cases hd : strcaseEq d.deviceId did = true
    · refine ⟨(d.processCommandS c p1 p2 bus).1, (d.processCommandS c p1 p2 bus).2.1,
        (d.processCommandS c p1 p2 bus).2.2 :: rest, ?_⟩
      simp [dispatchDeviceS, hd]
    · obtain ⟨res, msg, devs', hres⟩ := ih
      refine ⟨res, msg, d :: devs', ?_⟩
      simp [dispatchDeviceS, hd, hres]

theorem dispatchDeviceE_shape (did c p1 p2 : String) (bus : List (List Nat)) :
    ∀ devs : List Device, ∃ res msg devs',
      dispatchDeviceE devs did c p1 p2 bus = (tagOf res ++ msg, devs') := by
  intro devs
  induction devs with
  | nil =>
    refine ⟨CMD_ERROR, "Device not found: " ++ did, [], ?_⟩
    rw [dispatchDeviceE, ← notFound_tagged]
  | cons d rest ih =>
    by_cases hd : strcaseEq d.deviceId did = true
    · refine ⟨(d.processCommandE c p1 p2 bus).1, (d.processCommandE c p1 p2 bus).2.1,
        (d.processCommandE c p1 p2 bus).2.2 :: rest, ?_⟩
      simp [dispatchDeviceE, hd]
    · obtain ⟨res, msg, devs', hres⟩ := ih
      refine ⟨res, msg, d :: devs', ?_⟩
      simp [dispatchDeviceE, hd, hres]

theorem dispatchDeviceS_found (did c p1 p2 : String) (bus : List (List Nat)) :
    ∀ (devs : List Device) (d : Device), DeviceManager.findDevice devs did = some d →
      (dispatchDeviceS devs did c p1 p2 bus).fst =
        [tagOf (d.processCommandS c p1 p2 bus).1 ++ (d.processCommandS c p1 p2 bus).2.1] := by
  intro devs
  induction devs with
  | nil =>
    intro d hd
    simp [DeviceManager.findDevice] at hd
  | cons d0 rest ih =>
    intro d hd
    by_cases h0 : strcaseEq d0.deviceId did = true
    · have : d0 = d := by
        simpa [DeviceManager.findDevice, List.find?, h0] using hd
      subst this
      simp [dispatchDeviceS, h0]
    · have hd' : DeviceManager.findDevice rest did = some d := by
        simpa [DeviceManager.findDevice, List.find?, h0] using hd
      simp [dispatchDeviceS, h0, ih d hd']

theorem dispatchDeviceE_found (did c p1 p2 : String) (bus : List (List Nat)) :
    ∀ (devs : List Device) (d : Device), DeviceManager.findDevice devs did = some d →
      (dispatchDeviceE devs did c p1 p2 bus).fst =
        tagOf (d.processCommandE c p1 p2 bus).1 ++ (d.processCommandE c p1 p2 bus).2.1 := by
  intro devs
  induction devs with
  | nil =>
    intro d hd
    simp [DeviceManager.findDevice] at hd
  | cons d0 rest ih =>
    intro d hd
    by_cases h0 : strcaseEq d0.deviceId did = true
    · have : d0 = d := by
        simpa [DeviceManager.findDevice, List.find?, h0] using hd
      subst this
      simp [dispatchDeviceE, h0]
    · have hd' : DeviceManager.findDevice rest did = some d := by
        simpa [DeviceManager.findDevice, List.find?, h0] using hd
      simp [dispatchDeviceE, h0, ih d hd']

theorem strcaseEq_HELP_not_STATUS (s : String) (h : strcaseEq s "HELP" = true) :
    strcaseEq s "STATUS" = false := by
  have hbeq : (strLower s == strLower "HELP") = true := h
  have hl : strLower s = strLower "HELP" := eq_of_beq hbeq
  show (strLower s == strLower "STATUS") = false
  rw [hl]
  decide

/-- C3 (amended): every completed, non-`HELP` input line of the serial
transport yields exactly one response line of the form
`<tag><message>` with `<tag>` one of `OK: `, `DATA: `, `ERROR: `; on
both transports, a line that dispatches to a device gets the tag chosen
from that device's `CommandResult`, and a malformed line yields the
`ERROR: `-tagged invalid-format line; the ethernet transport answers
every line — including `HELP` — with exactly one such tagged line; the
serial `HELP` writes seven lines, the first of which is the
`OK: `-tagged usage header (the multi-line output being the
counterexample to the claim as stated). -/
theorem C3_single_tagged_response :
    (∀ (devs : List Device) (line : String) (bus : List (List Nat)),
      strcaseEq (trimChars line) "HELP" = false →
      ∃ res msg devs', processSerialCommand devs line bus = ([tagOf res ++ msg], devs')) ∧
    (∀ (devs : List Device) (did c p1 p2 : String) (bus : List (List Nat)) (d : Device),
      DeviceManager.findDevice devs did = some d →
      (dispatchDeviceS devs did c p1 p2 bus).fst =
        [tagOf (d.processCommandS c p1 p2 bus).1 ++ (d.processCommandS c p1 p2 bus).2.1]) ∧
    (∀ (devs : List Device) (line : String) (bus : List (List Nat)),
      strcaseEq (trimChars line) "STATUS" = false →
      strcaseEq (trimChars line) "HELP" = false →
      (tokensOf (trimChars line)).length < 2 →
      processSerialCommand devs line bus =
        ([tagOf CMD_ERROR ++ "Invalid command format. Use DEVICE_ID:COMMAND[:PARAM1[:PARAM2]]"],
         devs)) ∧
    (∀ (devs : List Device) (line : String) (bus : List (List Nat)),
      ∃ res msg devs', handleCommandString devs line bus = (tagOf res ++ msg, devs')) ∧
    (∀ (devs : List Device) (did c p1 p2 : String) (bus : List (List Nat)) (d : Device),
      DeviceManager.findDevice devs did = some d →
      (dispatchDeviceE devs did c p1 p2 bus).fst =
        tagOf (d.processCommandE c p1 p2 bus).1 ++ (d.processCommandE c p1 p2 bus).2.1) ∧
    (∀ (devs : List Device) (line : String) (bus : List (List Nat)),
      strcaseEq (trimChars line) "STATUS" = false →
      strcaseEq (trimChars line) "HELP" = false →
      (tokensOf (trimChars line)).length < 2 →
      handleCommandString devs line bus =
        (tagOf CMD_ERROR ++ "Invalid command format. Use DEVICE_ID:COMMAND[:PARAM1[:PARAM2]]",
         devs)) ∧
    (∀ (devs : List Device) (line : String) (bus : List (List Nat)),
      strcaseEq (trimChars line) "HELP" = true →
      (processSerialCommand devs line bus).fst.head? =
        some (tagOf CMD_OK ++ "Available commands:") ∧
      (processSerialCommand devs line bus).fst.length = 7) := by
  have hinv : invalidFormatLine =
      tagOf CMD_ERROR ++ "Invalid command format. Use DEVICE_ID:COMMAND[:PARAM1[:PARAM2]]" := by
    decide
  refine ⟨?_, ?_, ?_, ?_, ?_, ?_, ?_⟩
  · intro devs line bus hH
    by_cases hS : strcaseEq (trimChars line) "STATUS" = true
    · refine ⟨CMD_DATA, DeviceManager.getAllStatus devs 512 bus, devs, ?_⟩
      simp [processSerialCommand, hS, tagOf]
    · by_cases hfmt : (takeChars ((tokensOf (trimChars line))[0]?.getD "") 15).length = 0 ∨
          (takeChars ((tokensOf (trimChars line))[1]?.getD "") 15).length = 0
      · refine ⟨CMD_ERROR,
          "Invalid command format. Use DEVICE_ID:COMMAND[:PARAM1[:PARAM2]]", devs, ?_⟩
        rw [← hinv]
        rcases hfmt with h | h <;>
          simp [processSerialCommand, hS, hH, parseCommand, h]
      · push_neg at hfmt
        obtain ⟨h1, h2⟩ := hfmt
        obtain ⟨res, msg, devs', hdisp⟩ :=
          dispatchDeviceS_shape (takeChars ((tokensOf (trimChars line))[0]?.getD "") 15)
            (takeChars ((tokensOf (trimChars line))[1]?.getD "") 15)
            (takeChars ((tokensOf (trimChars line))[2]?.getD "") 31)
            (takeChars ((tokensOf (trimChars line))[3]?.getD "") 31) bus devs
        refine ⟨res, msg, devs', ?_⟩
        simp [processSerialCommand, hS, hH, parseCommand, h1, h2, hdisp]
  · intro devs did c p1 p2 bus d hd
    exact dispatchDeviceS_found did c p1 p2 bus devs d hd
  · intro devs line bus hS hH htok
    rw [← hinv]
    exact processSerial_malformed devs line bus hS hH htok
  · intro devs line bus
    by_cases hS : strcaseEq (trimChars line) "STATUS" = true
    · refine ⟨CMD_DATA, DeviceManager.allStatus devs 512 bus, devs, ?_⟩
      simp [handleCommandString, hS, tagOf]
    · by_cases hH : strcaseEq (trimChars line) "HELP" = true
      · refine ⟨CMD_OK,
          "Commands -> STATUS; DEVICE_ID:COMMAND[:PARAM1[:PARAM2]] e.g. REL_01:ON, VICI_01:GOTO:A, MFLEX_01:SPEED:100.0:+",
          devs, ?_⟩
        simp [handleCommandString, hS, hH]
        decide
      · by_cases hfmt : (takeChars ((tokensOf (trimChars line))[0]?.getD "") 15).length = 0 ∨
            (takeChars ((tokensOf (trimChars line))[1]?.getD "") 15).length = 0
        · refine ⟨CMD_ERROR,
            "Invalid command format. Use DEVICE_ID:COMMAND[:PARAM1[:PARAM2]]", devs, ?_⟩
          rw [← hinv]
          rcases hfmt with h | h <;>
            simp [handleCommandString, hS, hH, parseCommand, h, invalidFormatLine]
        · push_neg at hfmt
          obtain ⟨h1, h2⟩ := hfmt
          obtain ⟨res, msg, devs', hdisp⟩ :=
            dispatchDeviceE_shape (takeChars ((tokensOf (trimChars line))[0]?.getD "") 15)
              (takeChars ((tokensOf (trimChars line))[1]?.getD "") 15)
              (takeChars ((tokensOf (trimChars line))[2]?.getD "") 31)
              (takeChars ((tokensOf (trimChars line))[3]?.getD "") 31) bus devs
          refine ⟨res, msg, devs', ?_⟩
          simp [handleCommandString, hS, hH, parseCommand, h1, h2, hdisp]
  · intro devs did c p1 p2 bus d hd
    exact dispatchDeviceE_found did c p1 p2 bus devs d hd
  · intro devs line bus hS hH htok
    rw [← hinv]
    exact handleCommand_malformed devs line bus hS hH htok
  · intro devs line bus hHELP
    have hS : strcaseEq (trimChars line) "STATUS" = false :=
      strcaseEq_HELP_not_STATUS (trimChars line) hHELP
    have heq : (processSerialCommand devs line bus).fst =
        ["OK: Available commands:",
         "  STATUS - Get all device statuses",
         "  DEVICE_ID:COMMAND[:PARAM1[:PARAM2]]",
         "  Examples:",
         "    REL_01:ON",
         "    VICI_01:GOTO:A",
         "    MFLEX_01:SPEED:100.0:+"] := by
      simp [processSerialCommand, hS, hHELP]
    rw [heq]
    exact ⟨by decide, rfl⟩

/-- Witness for C3: the line `"NOPE_01:ON"` (a non-`HELP` line) against
the empty registry yields the single `ERROR: `-tagged not-found line. -/
theorem C3_single_tagged_response_witness :
    strcaseEq (trimChars "NOPE_01:ON") "HELP" = false ∧
    (∃ res msg devs',
      processSerialCommand [] "NOPE_01:ON" [] = ([tagOf res ++ msg], devs')) := by
  exact ⟨by decide, (C3_single_tagged_response).1 [] "NOPE_01:ON" [] (by decide)⟩

/-- Counterexample to C3 as stated: the serial transport answers the
completed input line `HELP` with seven lines, not one. -/
theorem C3_counterexample :
    (processSerialCommand setupDevices "HELP" []).fst.length = 7 ∧
    (processSerialCommand setupDevices "HELP" []).fst.length ≠ 1 := by
  decide

theorem str_empty_append (a : String) : "" ++ a = a := by
  rw [str_eq_iff_data, str_append_data]
  rfl

theorem str_append_empty (a : String) : a ++ "" = a := by
  rw [str_eq_iff_data, str_append_data]
  simp [show ("" : String).data = [] from rfl]

theorem takeChars_zero (s : String) : takeChars s 0 = "" := by
  rw [str_eq_iff_data, takeChars_data]
  rfl

theorem getStatusS_ne_empty (d : Device) (bus : List (List Nat)) :
    ((d.getStatusS bus).fst).data ≠ [] := by
  rcases d with r | v | m
  · by_cases h : r.state = true <;>
      simp [Device.getStatusS, RelayDevice.getStatus, h, str_append_data]
  · rcases h : readLine 32 (bus.head?.getD []) with _ | s <;>
      simp [Device.getStatusS, ViciDevice.getStatus, h, str_append_data]
  · by_cases hi : m.initialized = true
    · by_cases hr : (readMasterflexResponse 128 ((bus.head?.getD [] : List Nat))).fst = RESP_LINE <;>
        simp [Device.getStatusS, MasterflexDevice.getStatus, hi, hr, str_append_data]
    · simp [Device.getStatusS, MasterflexDevice.getStatus, hi, str_append_data]

theorem getStatusE_ne_empty (d : Device) (bus : List (List Nat)) :
    ((d.getStatusE bus).fst).data ≠ [] := by
  rcases d with r | v | m
  · by_cases h : r.state = true <;>
      simp [Device.getStatusE, RelayDevice.getStatus, h, str_append_data]
  · rcases h : readLine 32 (bus.head?.getD []) with _ | s <;>
      simp [Device.getStatusE, ViciDevice.getStatus, h, str_append_data]
  · by_cases hi : m.initialized = true
    · by_cases hr : (Ethernet.readMasterflexResponse 64 ((bus.head?.getD [] : List Nat))).fst =
          RESP_LINE <;>
        simp [Device.getStatusE, Ethernet.MasterflexDevice.getStatus, hi, hr, str_append_data]
    · simp [Device.getStatusE, Ethernet.MasterflexDevice.getStatus, hi, str_append_data]

theorem getAllStatusAux_spec (B : Nat) (hB : 1 ≤ B) :
    ∀ (devs : List Device) (bus : List (List Nat)) (acc : String),
      acc.length ≤ B - 1 →
      getAllStatusAux B devs bus acc =
        takeChars (acc ++ (if acc.data = [] then joinSep (enabledStatusesS devs bus)
                           else sepAll (enabledStatusesS devs bus))) (B - 1) := by
  intro devs
  induction devs with
  | nil =>
    intro bus acc hacc
    by_cases h : acc.data = [] <;>
      simp [getAllStatusAux, enabledStatusesS, joinSep, sepAll, h, str_append_empty,
        takeChars_of_le _ _ hacc]
  | cons d rest ih =>
    intro bus acc hacc
    by_cases hen : d.enabled = true
    · rcases hst : d.getStatusS bus with ⟨st, bus'⟩
      have hstne : st.data ≠ [] := by
        have := getStatusS_ne_empty d bus
        rw [hst] at this
        exact this
      by_cases hacc0 : acc.data = []
      · have haccE : acc = "" := str_eq_iff_data.mpr hacc0
        subst haccE
        have hlen0 : ¬ (("" : String).length > 0) := by decide
        rcases Nat.eq_zero_or_pos (B - 1) with hB1 | hB1
        · -- B = 1: everything truncates to the empty string
          have hone : B = 1 := by omega
          subst hone
          have hacc2 : strncatT "" st 1 = "" := by
            rw [strncatT_eq_takeChars _ _ _ (by decide), str_empty_append, takeChars_zero]
          rw [getAllStatusAux]
          simp only [hen, if_true, hst, hlen0, if_false, hacc2]
          rw [ih bus' "" (by decide)]
          simp [takeChars_zero]
        · have hacc2eq : strncatT "" st B = takeChars st (B - 1) := by
            rw [strncatT_eq_takeChars _ _ _ (by simp), str_empty_append]
          have hacc2ne : (takeChars st (B - 1)).data ≠ [] :=
            takeChars_ne_empty st (B - 1) hstne hB1
          rw [getAllStatusAux]
          simp only [hen, if_true, hst, hlen0, if_false, hacc2eq]
          rw [ih bus' (takeChars st (B - 1)) (length_takeChars_le _ _)]
          simp only [hacc2ne, if_false, hacc0, if_true]
          rw [takeChars_absorb, str_empty_append, enabledStatusesS]
          simp only [hen, if_true, hst, joinSep]
      · have hlenpos : acc.length > 0 := by
          rw [str_length_data]
          exact List.length_pos.mpr hacc0
        have hB1 : 1 ≤ B - 1 := by
          have := hacc
          rw [str_length_data] at this
          have := List.length_pos.mpr hacc0
          omega
        have hacc1eq : strncatT acc ", " B = takeChars (acc ++ ", ") (B - 1) :=
          strncatT_eq_takeChars _ _ _ hacc
        have hacc2eq : strncatT (takeChars (acc ++ ", ") (B - 1)) st B =
            takeChars (acc ++ ", " ++ st) (B - 1) := by
          rw [strncatT_eq_takeChars _ _ _ (length_takeChars_le _ _), takeChars_absorb]
        have hacc2ne : (takeChars (acc ++ ", " ++ st) (B - 1)).data ≠ [] := by
          refine takeChars_ne_empty _ _ ?_ hB1
          rw [str_append_data, str_append_data]
          simp [hacc0]
        rw [getAllStatusAux]
        simp only [hen, if_true, hst, hlenpos, if_true, hacc1eq, hacc2eq]
        rw [ih bus' (takeChars (acc ++ ", " ++ st) (B - 1)) (length_takeChars_le _ _)]
        simp only [hacc2ne, if_false, hacc0, if_false]
        rw [takeChars_absorb, enabledStatusesS]
        simp only [hen, if_true, hst, sepAll]
        rw [str_append_assoc, str_append_assoc, str_append_assoc]
    · have hen' : d.enabled = false := by
        cases hde : d.enabled
        · rfl
        · exact absurd hde hen
      rw [getAllStatusAux, enabledStatusesS]
      simp only [hen', Bool.false_eq_true, if_false]
      exact ih bus acc hacc

theorem allStatusAuxE_spec (B : Nat) (_hB : 1 ≤ B) :
    ∀ (devs : List Device) (bus : List (List Nat)) (first : Bool) (acc : String),
      acc.length ≤ B - 1 →
      (∀ d ∈ devs, d.enabled = true) →
      allStatusAuxE B devs bus first acc =
        takeChars (acc ++ (if first then joinSep (enabledStatusesE devs bus)
                           else sepAll (enabledStatusesE devs bus))) (B - 1) := by
  intro devs
  induction devs with
  | nil =>
    intro bus first acc hacc _
    rcases first <;>
      simp [allStatusAuxE, enabledStatusesE, joinSep, sepAll, str_append_empty,
        takeChars_of_le _ _ hacc]
  | cons d rest ih =>
    intro bus first acc hacc hall
    have hen : d.enabled = true := hall d (List.mem_cons_self d rest)
    have hall' : ∀ x ∈ rest, x.enabled = true := fun x hx => hall x (List.mem_cons_of_mem d hx)
    rcases hst : d.getStatusE bus with ⟨st, bus'⟩
    rcases first
    · -- first = false: the ", " separator is prepended
      have hacc1eq : strncatT acc ", " B = takeChars (acc ++ ", ") (B - 1) :=
        strncatT_eq_takeChars _ _ _ hacc
      have hacc2eq : strncatT (takeChars (acc ++ ", ") (B - 1)) st B =
          takeChars (acc ++ ", " ++ st) (B - 1) := by
        rw [strncatT_eq_takeChars _ _ _ (length_takeChars_le _ _), takeChars_absorb]
      rw [allStatusAuxE]
      simp only [Bool.false_eq_true, if_false, hst, hacc1eq, hacc2eq]
      rw [ih bus' false (takeChars (acc ++ ", " ++ st) (B - 1))
        (length_takeChars_le _ _) hall']
      simp only [Bool.false_eq_true, if_false]
      rw [takeChars_absorb, enabledStatusesE]
      simp only [hen, if_true, hst, sepAll]
      rw [str_append_assoc, str_append_assoc, str_append_assoc]
    · -- first = true: no separator
      have hacc2eq : strncatT acc st B = takeChars (acc ++ st) (B - 1) :=
        strncatT_eq_takeChars _ _ _ hacc
      rw [allStatusAuxE]
      simp only [if_true, hst, hacc2eq]
      rw [ih bus' false (takeChars (acc ++ st) (B - 1)) (length_takeChars_le _ _) hall']
      simp only [Bool.false_eq_true, if_false]
      rw [takeChars_absorb, enabledStatusesE]
      simp only [hen, if_true, hst, joinSep]
      rw [str_append_assoc]

/-- C5: aggregate status produces the status strings of exactly the
enabled devices, in registration order, joined by `", "` and truncated
to the destination buffer (at most `B - 1` characters plus the
terminator fit in a `B`-byte buffer, so the buffer is never overrun;
content may be clipped).  For the ethernet sketch — whose `allStatus`
iterates every registered device without consulting `enabled` — the
same holds on every registry whose devices are all enabled, which is
every registry this firmware builds (`initialize()` always enables). -/
theorem C5_aggregate_status :
    (∀ (devs : List Device) (bus : List (List Nat)) (B : Nat), 1 ≤ B →
      DeviceManager.getAllStatus devs B bus =
        takeChars (joinSep (enabledStatusesS devs bus)) (B - 1) ∧
      (DeviceManager.getAllStatus devs B bus).length ≤ B - 1) ∧
    (∀ (devs : List Device) (bus : List (List Nat)) (B : Nat), 1 ≤ B →
      (∀ d ∈ devs, d.enabled = true) →
      DeviceManager.allStatus devs B bus =
        takeChars (joinSep (enabledStatusesE devs bus)) (B - 1) ∧
      (DeviceManager.allStatus devs B bus).length ≤ B - 1) := by
  constructor
  · intro devs bus B hB
    have h := getAllStatusAux_spec B hB devs bus "" (by simp)
    have heq : DeviceManager.getAllStatus devs B bus =
        takeChars (joinSep (enabledStatusesS devs bus)) (B - 1) := by
      rw [DeviceManager.getAllStatus, h]
      simp [str_empty_append]
    refine ⟨heq, ?_⟩
    rw [heq]
    exact length_takeChars_le _ _
  · intro devs bus B hB hall
    have h := allStatusAuxE_spec B hB devs bus true "" (by simp) hall
    have heq : DeviceManager.allStatus devs B bus =
        takeChars (joinSep (enabledStatusesE devs bus)) (B - 1) := by
      rw [DeviceManager.allStatus, h]
      simp [str_empty_append]
    refine ⟨heq, ?_⟩
    rw [heq]
    exact length_takeChars_le _ _

/-- Witness for C5 at the `setup()` registry (all devices enabled), a
silent bus and the sketch's 512-byte buffer. -/
theorem C5_aggregate_status_witness :
    (1 ≤ 512) ∧ (∀ d ∈ setupDevices, d.enabled = true) ∧
    DeviceManager.getAllStatus setupDevices 512 [] =
      takeChars (joinSep (enabledStatusesS setupDevices [])) 511 ∧
    (DeviceManager.getAllStatus setupDevices 512 []).length ≤ 511 ∧
    DeviceManager.allStatus setupDevices 512 [] =
      takeChars (joinSep (enabledStatusesE setupDevices [])) 511 ∧
    (DeviceManager.allStatus setupDevices 512 []).length ≤ 511 := by
  obtain ⟨h1, h2⟩ := (C5_aggregate_status).1 setupDevices [] 512 (by decide)
  obtain ⟨h3, h4⟩ := (C5_aggregate_status).2 setupDevices [] 512 (by decide) (by decide)
  exact ⟨by decide, by decide, h1, h2, h3, h4⟩

end Opta
